import Mathlib

/-!
Verification of the OneLayer convex-polyhedron clipping engine
(CrystalGraphics repository, directory `OneLayer`).

The development shallowly embeds the geometry core — `Vertex`, `Edge`,
`EdgeDictionary`, `Plane`, `Polygon`, `Face`, `Polyhedron` — and proves or
refutes the frozen claims about it.

Modelling conventions:

* Python floats are modelled as exact rationals (`ℚ`); decimal literals in
  the source (tolerances such as `0.00005`, `1e-10`, `0.005`) become the
  exact rationals they denote.
* `math.isclose(a, b, abs_tol=t)` is modelled faithfully, including the
  default relative tolerance `1e-9`:
  `|a-b| ≤ max (relTol * max |a| |b|) t`.
* Comparisons of the form `sqrt s < c` or `a/b < c` with nonnegative
  quantities are rendered with both sides squared (equivalently,
  cross-multiplied), so that everything stays inside `ℚ`; each such
  rendering is noted at its definition.
* Python objects with identity (vertices, edges, polygons, faces,
  polyhedra) live in arenas inside a single `State`; object identity is
  index equality, and in-place mutation is explicit state passing.
  Methods that can raise return `Except GErr`.
* Python `dict`/`set` iteration order is under-determined; the model uses
  insertion order.  Every place that relies on this is noted; in the
  executions used by the claims at most one candidate ever exists, or the
  choice is geometrically forced.
-/

section CrystalGraphicsVerification

deriving instance DecidableEq for Except

/-- Tolerance from `Plane.py`: `planeTolerance = 0.00005`. -/
def planeTolerance : ℚ := 5 / 100000

/-- Tolerance from `Plane.py`: `zeroTolerance = 1e-10`. -/
def zeroTolerance : ℚ := 1 / 10000000000

/-- Default relative tolerance of Python's `math.isclose` (`1e-9`). -/
def relTol : ℚ := 1 / 1000000000

/-- Python's `math.isclose(a, b, abs_tol = t)` with the default
`rel_tol = 1e-9`: `|a-b| <= max(rel_tol * max(|a|,|b|), abs_tol)`. -/
def isclose (a b t : ℚ) : Bool := |a - b| ≤ max (relTol * max |a| |b|) t

/-- Vertex.py: a vertex is its three coordinates.  Object identity is
modelled separately by arena indices (`VertexId`). -/
structure Vertex where
  x : ℚ
  y : ℚ
  z : ℚ
deriving DecidableEq, Repr

/-- VectorOps.py `dot3`. -/
def dot3 (v1 v2 : ℚ × ℚ × ℚ) : ℚ :=
  v1.1 * v2.1 + v1.2.1 * v2.2.1 + v1.2.2 * v2.2.2

/-- VectorOps.py `cross` (`v1 × v2`). -/
def cross (v1 v2 : ℚ × ℚ × ℚ) : ℚ × ℚ × ℚ :=
  ( v1.2.1 * v2.2.2 - v2.2.1 * v1.2.2
  , v2.1 * v1.2.2 - v1.1 * v2.2.2
  , v1.1 * v2.2.1 - v2.1 * v1.2.1 )

/-- VectorOps.py `scale3`. -/
def scale3 (v : ℚ × ℚ × ℚ) (a : ℚ) : ℚ × ℚ × ℚ :=
  (a * v.1, a * v.2.1, a * v.2.2)

/-- Squared Euclidean norm; `length3 v = sqrt (normSq3 v)`.  The source's
comparisons of `length3` against positive bounds are rendered squared. -/
def normSq3 (v : ℚ × ℚ × ℚ) : ℚ := v.1 * v.1 + v.2.1 * v.2.1 + v.2.2 * v.2.2

/-- Plane.py: a plane `Ax + By + Cz = D`.  The record holds the
coefficients after the constructor's normalisation (the constructor itself
divides by the real `sqrt(A²+B²+C²)`; see `Plane.ofCoefficients`). -/
structure Plane where
  A : ℚ
  B : ℚ
  C : ℚ
  D : ℚ
deriving DecidableEq, Repr

/-- Exact square root of a natural number by bounded structural search
(kernel-reducible, unlike `Nat.sqrt`). -/
def natSqrtExact (n : Nat) : Option Nat :=
  (List.range (n + 1)).find? fun k => k * k = n

/-- Exact rational square root, if one exists.  Stands in for the real
`sqrt` of `Plane.__init__`; the model only represents planes whose normal
has rational magnitude (true of every plane in the concrete executions
below). -/
def ratSqrt (q : ℚ) : Option ℚ :=
  if 0 ≤ q then
    match natSqrtExact q.num.toNat, natSqrtExact q.den with
    | some sn, some sd => some ((sn : ℚ) / (sd : ℚ))
    | _, _ => none
  else none

/-- Plane.py `__init__`: divide all four coefficients by the magnitude of
`(A,B,C)`.  Returns `none` when the magnitude is irrational (inexpressible
in the rational model) or zero. -/
def Plane.ofCoefficients (A B C D : ℚ) : Option Plane :=
  match ratSqrt (A * A + B * B + C * C) with
  | some m => if m = 0 then none else some ⟨A / m, B / m, C / m, D / m⟩
  | none => none

/-- Plane.py `planeNumber`: `Ax + By + Cz`, dropping any term whose plane
coefficient is `0` to within `zeroTolerance` (the source builds a term
list with `pushTerm` and `fsum`s it; over `ℚ` the sum is exact). -/
def Plane.planeNumber (pl : Plane) (x y z : ℚ) : ℚ :=
  (if |pl.A| > zeroTolerance then pl.A * x else 0) +
  (if |pl.B| > zeroTolerance then pl.B * y else 0) +
  (if |pl.C| > zeroTolerance then pl.C * z else 0)

/-- Plane.py `planeZero`: `Ax + By + Cz - D` with the same small-coefficient
dropping as `planeNumber`. -/
def Plane.planeZero (pl : Plane) (x y z : ℚ) : ℚ :=
  (if |pl.A| > zeroTolerance then pl.A * x else 0) +
  (if |pl.B| > zeroTolerance then pl.B * y else 0) +
  (if |pl.C| > zeroTolerance then pl.C * z else 0) +
  (if |pl.D| > zeroTolerance then -pl.D else 0)

/-- Plane.py `whichSide` on coordinates: `0` if `planeZero` is within
`planeTolerance` of `0`, else the sign of `planeZero`. -/
def Plane.whichSideV (pl : Plane) (v : Vertex) : ℤ :=
  if isclose (pl.planeZero v.x v.y v.z) 0 planeTolerance then 0
  else if pl.planeZero v.x v.y v.z > 0 then 1
  else -1

/-- Plane.py `containsPoint`. -/
def Plane.containsPointV (pl : Plane) (v : Vertex) : Bool :=
  isclose (pl.planeZero v.x v.y v.z) 0 planeTolerance

/-- Plane.py `normal`: the 3-vector part of the homogeneous normal. -/
def Plane.normal3 (pl : Plane) : ℚ × ℚ × ℚ := (pl.A, pl.B, pl.C)

/-- Intersection parameter `t` of `Plane.intersection`: the segment is
`p1 + t (p2 - p1)`. -/
def Plane.interT (pl : Plane) (p1 p2 : Vertex) : ℚ :=
  (-(pl.planeZero p1.x p1.y p1.z)) /
    pl.planeNumber (p2.x - p1.x) (p2.y - p1.y) (p2.z - p1.z)

/-- Possible results of `Plane.intersection`, before vertex allocation:
no intersection, the existing first endpoint, the existing second
endpoint, or a freshly created interior vertex. -/
inductive ICase where
  | noInter : ICase
  | endpt1 : ICase
  | endpt2 : ICase
  | newPt : Vertex → ICase
deriving DecidableEq, Repr

/-- Plane.py `intersection`, pure part (Plane.py lines 116–155): returns
`None` on a parallel segment (`|divisor|` close to `0` within
`zeroTolerance`); the existing endpoint when `t` is within
`planeTolerance` of `0` or `1`; a new interior vertex when `0 < t < 1`;
and `None` otherwise. -/
def Plane.intersectionCase (pl : Plane) (p1 p2 : Vertex) : ICase :=
  let divisor := pl.planeNumber (p2.x - p1.x) (p2.y - p1.y) (p2.z - p1.z)
  if isclose divisor 0 zeroTolerance then ICase.noInter
  else
    let t := (-(pl.planeZero p1.x p1.y p1.z)) / divisor
    if isclose t 0 planeTolerance then ICase.endpt1
    else if isclose t 1 planeTolerance then ICase.endpt2
    else if 0 < t ∧ t < 1 then
      ICase.newPt ⟨(1 - t) * p1.x + t * p2.x,
                   (1 - t) * p1.y + t * p2.y,
                   (1 - t) * p1.z + t * p2.z⟩
    else ICase.noInter

/-- Edge record: endpoints plus optional split structure (Edge.py
attributes `end1, end2, front, back, splitterVertex`). -/
structure EdgeRec where
  end1 : Nat
  end2 : Nat
  front : Option Nat
  back : Option Nat
  splitterVertex : Option Nat
deriving DecidableEq, Repr

/-- Polygon record (Polygon.py attributes `edges, front, back,
splitterEdge`). -/
structure PolygonRec where
  edges : List Nat
  front : Option Nat
  back : Option Nat
  splitterEdge : Option Nat
deriving DecidableEq, Repr

/-- Modelled from the spec: the `Face` class used by `Polyhedron.py`
(constructed as `Face(isSplitter, orientation, polygon, color)`) is not
present under `src/` — `src/OneLayer/Face.py` is a superseded 2021 class
with an incompatible interface (constructor takes an edge list; its
`split` takes plane coefficients and does not delegate to a polygon).
Fields follow spec §3: `(isSplitter : bool, orientation : ±1, polygon,
color)`. -/
structure FaceRec where
  isSplitterF : Bool
  orientation : ℤ
  polygon : Nat
  color : ℕ
deriving DecidableEq, Repr

/-- Polyhedron record (Polyhedron.py attributes `faces, color, front,
back`). -/
structure PolyhedronRec where
  faces : List Nat
  color : ℕ
  front : Option Nat
  back : Option Nat
deriving DecidableEq, Repr

/-- EdgeDictionary.py: a map from vertices to the set of incident edges.
Modelled as an association list in key-insertion order with edge lists in
insertion order (Python's dict keeps key order; its sets are unordered —
see the header note on iteration order). -/
structure EdgeDictionary where
  edges : List (Nat × List Nat)
deriving DecidableEq, Repr

/-- EdgeDictionary.py `find1`: all edges at a vertex, `[]` if absent. -/
def EdgeDictionary.find1 (d : EdgeDictionary) (v : Nat) : List Nat :=
  match d.edges.lookup v with
  | some l => l
  | none => []

/-- EdgeDictionary.py `find2`: some edge having both vertices as ends
(first in insertion order here), or `none`. -/
def EdgeDictionary.find2 (d : EdgeDictionary) (v1 v2 : Nat) : Option Nat :=
  ((d.find1 v1).filter (fun e => (d.find1 v2).contains e)).head?

/-- EdgeDictionary.py `insertAtPoint`: add the edge to the vertex's set. -/
def EdgeDictionary.insertAtPoint (d : EdgeDictionary) (e v : Nat) : EdgeDictionary :=
  if (d.edges.lookup v).isSome then
    ⟨d.edges.map fun p =>
      if p.1 = v then (p.1, if p.2.contains e then p.2 else p.2 ++ [e]) else p⟩
  else ⟨d.edges ++ [(v, [e])]⟩

/-- EdgeDictionary.py `element`: an arbitrary edge (first in insertion
order here), or `none` if the dictionary is empty. -/
def EdgeDictionary.element (d : EdgeDictionary) : Option Nat :=
  match d.edges with
  | [] => none
  | (_, l) :: _ => l.head?

/-- Errors for operations that raise in the source (RuntimeError,
ValueError, IndexError/AttributeError), plus fuel exhaustion for the
source's unbounded recursions/loops and the rational-sqrt restriction of
`Plane.ofCoefficients`. -/
inductive GErr where
  | duplicateEdge : GErr
  | shortEdge : GErr
  | noSharedVertex : GErr
  | noInsertionPoint : GErr
  | splitRuleErr : GErr
  | planeEdgeErr : GErr
  | noSharedEdge : GErr
  | listIndexErr : GErr
  | runtimeErr : GErr
  | irrationalPlane : GErr
  | fuelOut : GErr
deriving DecidableEq, Repr

/-- Heap of all objects: arenas for vertices, edges, polygons, faces and
polyhedra, plus the global `Edge.allEdges` registry.  Object identity is
arena index. -/
structure State where
  verts : Array Vertex
  edges : Array EdgeRec
  allEdges : EdgeDictionary
  polygons : Array PolygonRec
  faces : Array FaceRec
  polys : Array PolyhedronRec
deriving DecidableEq, Repr

/-- Empty heap. -/
def State.empty : State := ⟨#[], #[], ⟨[]⟩, #[], #[], #[]⟩

/-- Read a vertex (out-of-range reads return the origin; well-formed
executions never read out of range). -/
def State.vert (s : State) (i : Nat) : Vertex := s.verts.getD i ⟨0, 0, 0⟩

/-- Read an edge record. -/
def State.edge (s : State) (i : Nat) : EdgeRec := s.edges.getD i ⟨0, 0, none, none, none⟩

/-- Read a polygon record. -/
def State.polygon (s : State) (i : Nat) : PolygonRec := s.polygons.getD i ⟨[], none, none, none⟩

/-- Read a face record. -/
def State.face (s : State) (i : Nat) : FaceRec := s.faces.getD i ⟨false, 1, 0, 0⟩

/-- Read a polyhedron record. -/
def State.poly (s : State) (i : Nat) : PolyhedronRec := s.polys.getD i ⟨[], 0, none, none⟩

/-- Overwrite an edge record (in-place mutation of the object). -/
def State.setEdge (s : State) (i : Nat) (e : EdgeRec) : State :=
  { s with edges := s.edges.setD i e }

/-- Overwrite a polygon record. -/
def State.setPolygon (s : State) (i : Nat) (p : PolygonRec) : State :=
  { s with polygons := s.polygons.setD i p }

/-- Overwrite a polyhedron record. -/
def State.setPoly (s : State) (i : Nat) (p : PolyhedronRec) : State :=
  { s with polys := s.polys.setD i p }

/-- Allocate a vertex (`Vertex(x, y, z)`). -/
def State.newVertex (s : State) (v : Vertex) : State × Nat :=
  ({ s with verts := s.verts.push v }, s.verts.size)

/-- Squared distance between two vertices.  `Vertex.distance` is absent
from `src/OneLayer/Vertex.py` (a superseded file); Euclidean distance is
the only reading consistent with its caller `Edge.isSmallSplit` and the
spec's geometry, and the model renders its comparisons squared. -/
def Vertex.distSq (a b : Vertex) : ℚ :=
  normSq3 (a.x - b.x, a.y - b.y, a.z - b.z)

/-- Plane.py `intersection` at the heap level: the endpoint cases return
the existing vertex id unchanged; the interior case allocates a fresh
vertex. -/
def Plane.intersection (pl : Plane) (s : State) (i1 i2 : Nat) : State × Option Nat :=
  match pl.intersectionCase (s.vert i1) (s.vert i2) with
  | ICase.noInter => (s, none)
  | ICase.endpt1 => (s, some i1)
  | ICase.endpt2 => (s, some i2)
  | ICase.newPt v =>
    match s.newVertex v with
    | (s1, i) => (s1, some i)

/-- Edge.py `hasEnd`. -/
def EdgeRec.hasEnd (e : EdgeRec) (v : Nat) : Bool := e.end1 = v || e.end2 = v

/-- Edge.py `hasEnd` when the source passes a possibly-`None` value
(Python's `is` never equates `None` with a vertex). -/
def EdgeRec.hasEndO (e : EdgeRec) (v : Option Nat) : Bool :=
  some e.end1 = v || some e.end2 = v

/-- Edge.py `oppositeFrom`. -/
def EdgeRec.oppositeFrom (e : EdgeRec) (v : Nat) : Nat :=
  if v = e.end1 then e.end2 else e.end1

/-- Edge.py `oppositeFrom` when the source passes a possibly-`None` value
(`None is self.end1` is false, so `None` yields `end1`). -/
def EdgeRec.oppositeFromO (e : EdgeRec) (v : Option Nat) : Nat :=
  if v = some e.end1 then e.end2 else e.end1

/-- Edge.py `vectorAlong` (3-vector part; the homogeneous 4th component 0
is never consumed by `cross`/`dot3`/`length3`). -/
def State.vectorAlong (s : State) (eid : Nat) : ℚ × ℚ × ℚ :=
  let e := s.edge eid
  ( (s.vert e.end2).x - (s.vert e.end1).x
  , (s.vert e.end2).y - (s.vert e.end1).y
  , (s.vert e.end2).z - (s.vert e.end1).z )

/-- Edge.py `vectorTo`: vector along this edge pointing toward the shared
end with `target`. -/
def State.vectorTo (s : State) (eid target : Nat) : ℚ × ℚ × ℚ :=
  let e := s.edge eid
  let t := s.edge target
  if e.end2 = t.end1 ∨ e.end2 = t.end2 then
    ( (s.vert e.end2).x - (s.vert e.end1).x
    , (s.vert e.end2).y - (s.vert e.end1).y
    , (s.vert e.end2).z - (s.vert e.end1).z )
  else
    ( (s.vert e.end1).x - (s.vert e.end2).x
    , (s.vert e.end1).y - (s.vert e.end2).y
    , (s.vert e.end1).z - (s.vert e.end2).z )

/-- Squared length of an edge (`Edge.length` squared; the source takes a
real square root, which the model avoids by squaring comparisons). -/
def State.lengthSq (s : State) (eid : Nat) : ℚ := normSq3 (s.vectorAlong eid)

/-- Edge.py `isParallelTo`: parallelism measure
`|cross| / (|v1| |v2|) ≤ 1.0e-9`, rendered with both sides squared. -/
def State.isParallelTo (s : State) (e1 e2 : Nat) : Bool :=
  let a := s.vectorAlong e1
  let b := s.vectorAlong e2
  normSq3 (cross a b) ≤ relTol * relTol * (normSq3 a * normSq3 b)

/-- Edge.py `isSmallSplit`: `distance(splitter, end) / length < 0.005`,
rendered squared (`0.005² = 1/40000`). -/
def State.isSmallSplit (s : State) (eid splitter endV : Nat) : Bool :=
  Vertex.distSq (s.vert splitter) (s.vert endV) * 40000 < s.lengthSq eid

/-- Edge.py `__init__` (lines 60–81): raise if the registry already has an
edge with these two endpoints, or if the edge is ultra-short
(`length < 0.00005`, squared: `distSq·20000² < 1`); otherwise allocate the
unsplit edge and register it in `Edge.allEdges` under both endpoints. -/
def Edge.init (s : State) (v1 v2 : Nat) : Except GErr (State × Nat) :=
  if (s.allEdges.find2 v1 v2).isSome then .error .duplicateEdge
  else if Vertex.distSq (s.vert v1) (s.vert v2) * (20000 * 20000) < 1 then
    .error .shortEdge
  else
    let eid := s.edges.size
    let s1 := { s with edges := s.edges.push ⟨v1, v2, none, none, none⟩ }
    let s2 := { s1 with
      allEdges := (s1.allEdges.insertAtPoint eid v1).insertAtPoint eid v2 }
    .ok (s2, eid)

/-- Edge.py `makeSplitEdge` (lines 566–582): reuse a registered edge
between the outer ends if one exists, else create one and attach the given
front/back/splitter structure. -/
def makeSplitEdge (s : State) (newFront newBack : Nat) (newSplitter : Option Nat) :
    Except GErr (State × Nat) :=
  let frontEnd := (s.edge newFront).oppositeFromO newSplitter
  let backEnd := (s.edge newBack).oppositeFromO newSplitter
  match s.allEdges.find2 frontEnd backEnd with
  | some e => .ok (s, e)
  | none =>
    match Edge.init s frontEnd backEnd with
    | .error err => .error err
    | .ok (s1, eid) =>
      .ok (s1.setEdge eid
            { s1.edge eid with
              front := some newFront, back := some newBack,
              splitterVertex := newSplitter }, eid)

/-- Edge.py `extendWith` (lines 333–346). -/
def Edge.extendWith (s : State) (selfE extension : Nat) : Except GErr (State × Nat) :=
  if (s.edge selfE).hasEnd (s.edge extension).end1 then
    makeSplitEdge s selfE extension (some (s.edge extension).end1)
  else if (s.edge selfE).hasEnd (s.edge extension).end2 then
    makeSplitEdge s selfE extension (some (s.edge extension).end2)
  else .error .noSharedVertex

/-- Edge.py `commonParent` (lines 357–390). -/
def Edge.commonParent (s : State) (selfE other : Nat) :
    Except GErr (State × Option Nat) :=
  if ¬ s.isParallelTo selfE other then .ok (s, none)
  else
    let sharedEnd? :=
      if (s.edge other).hasEnd (s.edge selfE).end1 then some (s.edge selfE).end1
      else if (s.edge other).hasEnd (s.edge selfE).end2 then some (s.edge selfE).end2
      else none
    match sharedEnd? with
    | none => .ok (s, none)
    | some sharedEnd =>
      match s.allEdges.find2 ((s.edge selfE).oppositeFrom sharedEnd)
          ((s.edge other).oppositeFrom sharedEnd) with
      | some p => .ok (s, some p)
      | none =>
        match Edge.extendWith s selfE other with
        | .error e => .error e
        | .ok (s1, p) => .ok (s1, some p)

/-- Turn a Python attribute access on a possibly-`None` value into an
explicit error (`AttributeError` in the source is an invariant
violation). -/
def expectSome {α : Type} : Option α → Except GErr α
  | some a => Except.ok a
  | none => Except.error GErr.runtimeErr

/-- Post-processing of a recursive split of the FRONT sub-edge
(Edge.py `split`, lines 232–258): the five cases the source checks before
falling through to the back sub-edge.  A `none` result means no case
matched and control falls through (the source's nested flow, hoisted to a
top-level helper). -/
def Edge.splitCombineFront (s : State) (selfE frontE : Nat)
    (r : Option Nat × Option Nat × Option Nat) :
    Except GErr (State × Option (Option Nat × Option Nat × Option Nat)) :=
  let (frontFront, frontBack, frontSplitter) := r
  let frontEnd := (s.edge frontE).oppositeFromO (s.edge selfE).splitterVertex
  if frontFront ≠ none ∧ frontBack ≠ none ∧ frontSplitter ≠ none then do
    let ffE ← expectSome frontFront
    let fbE ← expectSome frontBack
    if (s.edge ffE).hasEndO (s.edge selfE).splitterVertex then do
      let bE ← expectSome (s.edge selfE).back
      let (s, newE) ← makeSplitEdge s bE ffE (s.edge selfE).splitterVertex
      .ok (s, some (some newE, some fbE, frontSplitter))
    else do
      let bE ← expectSome (s.edge selfE).back
      let (s, newE) ← makeSplitEdge s fbE bE (s.edge selfE).splitterVertex
      .ok (s, some (some ffE, some newE, frontSplitter))
  else if frontFront ≠ none ∧ frontBack = none ∧
      frontSplitter = (s.edge selfE).splitterVertex then
    .ok (s, some ((s.edge selfE).front, (s.edge selfE).back,
                  (s.edge selfE).splitterVertex))
  else if frontFront = none ∧ frontBack ≠ none ∧
      frontSplitter = (s.edge selfE).splitterVertex then
    .ok (s, some ((s.edge selfE).back, (s.edge selfE).front,
                  (s.edge selfE).splitterVertex))
  else if frontFront ≠ none ∧ frontBack = none ∧ frontSplitter = some frontEnd then
    .ok (s, some (some selfE, none, some frontEnd))
  else if frontFront = none ∧ frontBack ≠ none ∧ frontSplitter = some frontEnd then
    .ok (s, some (none, some selfE, some frontEnd))
  else .ok (s, none)

/-- Post-processing of a recursive split of the BACK sub-edge (Edge.py
`split`, lines 265–283): three cases, then the source's final
`RuntimeError`. -/
def Edge.splitCombineBack (s : State) (selfE backE : Nat)
    (r : Option Nat × Option Nat × Option Nat) :
    Except GErr (State × (Option Nat × Option Nat × Option Nat)) :=
  let (backFront, backBack, backSplitter) := r
  let backEnd := (s.edge backE).oppositeFromO (s.edge selfE).splitterVertex
  if backFront ≠ none ∧ backBack ≠ none ∧ backSplitter ≠ none then do
    let bfE ← expectSome backFront
    let bbE ← expectSome backBack
    if (s.edge bfE).hasEndO (s.edge selfE).splitterVertex then do
      let fE ← expectSome (s.edge selfE).front
      let (s, newE) ← makeSplitEdge s fE bfE (s.edge selfE).splitterVertex
      .ok (s, (some newE, some bbE, backSplitter))
    else do
      let fE ← expectSome (s.edge selfE).front
      let (s, newE) ← makeSplitEdge s bbE fE (s.edge selfE).splitterVertex
      .ok (s, (some bfE, some newE, backSplitter))
  else if backFront ≠ none ∧ backBack = none ∧ backSplitter = some backEnd then
    .ok (s, (some selfE, none, some backEnd))
  else if backFront = none ∧ backBack ≠ none ∧ backSplitter = some backEnd then
    .ok (s, (none, some selfE, some backEnd))
  else .error .runtimeErr

/-- The unsplit-straddling-edge branch of Edge.py `split` (lines
138–193): intersect with the plane; a split ridiculously close to either
end is treated as trivial; otherwise create the two sub-edges, attach them
as front/back according to `side1`, and memoize the splitter vertex. -/
def Edge.splitFresh (s : State) (selfE : Nat) (pl : Plane) (side1 side2 : ℤ) :
    Except GErr (State × (Option Nat × Option Nat × Option Nat)) :=
  let e := s.edge selfE
  match pl.intersection s e.end1 e.end2 with
  | (s, none) => .error .runtimeErr
  | (s, some sv) =>
    if s.isSmallSplit selfE sv e.end2 then
      if side1 > 0 then .ok (s, (some selfE, none, some e.end2))
      else if side1 < 0 then .ok (s, (none, some selfE, some e.end2))
      else .ok (s, (some selfE, some selfE, none))
    else if s.isSmallSplit selfE sv e.end1 then
      if side2 > 0 then .ok (s, (some selfE, none, some e.end1))
      else if side2 < 0 then .ok (s, (none, some selfE, some e.end1))
      else .ok (s, (some selfE, some selfE, none))
    else do
      let (s, sub1) ← Edge.init s e.end1 sv
      let (s, sub2) ← Edge.init s e.end2 sv
      let e' :=
        if side1 > 0 then
          { s.edge selfE with front := some sub1, back := some sub2,
                              splitterVertex := some sv }
        else
          { s.edge selfE with front := some sub2, back := some sub1,
                              splitterVertex := some sv }
      .ok (s.setEdge selfE e', (e'.front, e'.back, e'.splitterVertex))

/-- Edge.py `split` (lines 93–287).  The first seven cases classify by the
endpoint sides; an unsplit straddling edge is intersected, with the
small-split guards; an already-split straddling edge recurses into its
front sub-edge, tries the five front cases, and otherwise recurses into
its back sub-edge (`fuel` bounds the recursion into the sub-edge
graph). -/
def Edge.split (fuel : Nat) (s : State) (selfE : Nat) (pl : Plane) :
    Except GErr (State × (Option Nat × Option Nat × Option Nat)) :=
  match fuel with
  | 0 => .error .fuelOut
  | fuel + 1 =>
    let e := s.edge selfE
    let side1 := pl.whichSideV (s.vert e.end1)
    let side2 := pl.whichSideV (s.vert e.end2)
    if side1 < 0 ∧ side2 < 0 then .ok (s, (none, some selfE, none))
    else if side1 < 0 ∧ side2 = 0 then .ok (s, (none, some selfE, some e.end2))
    else if side1 = 0 ∧ side2 < 0 then .ok (s, (none, some selfE, some e.end1))
    else if side1 = 0 ∧ side2 = 0 then .ok (s, (some selfE, some selfE, none))
    else if side1 = 0 ∧ side2 > 0 then .ok (s, (some selfE, none, some e.end1))
    else if side1 > 0 ∧ side2 = 0 then .ok (s, (some selfE, none, some e.end2))
    else if side1 > 0 ∧ side2 > 0 then .ok (s, (some selfE, none, none))
    else if e.front = none ∧ e.back = none then
      Edge.splitFresh s selfE pl side1 side2
    else
      match (s.edge selfE).front with
      | none =>
        (match (s.edge selfE).back with
         | none => .error .runtimeErr
         | some backE => do
            let (s, r) ← Edge.split fuel s backE pl
            Edge.splitCombineBack s selfE backE r)
      | some frontE => do
        let (s, r) ← Edge.split fuel s frontE pl
        let (s, res?) ← Edge.splitCombineFront s selfE frontE r
        match res? with
        | some res => .ok (s, res)
        | none =>
          match (s.edge selfE).back with
          | none => .error .runtimeErr
          | some backE => do
            let (s, r2) ← Edge.split fuel s backE pl
            Edge.splitCombineBack s selfE backE r2

/-- Edge.py `hoistInto` (lines 299–320): append `selfE` to the list, but
while it has a common parent with the list's last edge replace both by
that parent.  Structural recursion on `fuel` (any fuel beyond the list
length behaves identically) keeps the definition kernel-computable. -/
def Edge.hoistInto (fuel : Nat) (s : State) (selfE : Nat) (edgeList : List Nat) :
    Except GErr (State × List Nat) :=
  match fuel with
  | 0 => .error .fuelOut
  | fuel + 1 =>
    match edgeList.getLast? with
    | none => .ok (s, edgeList ++ [selfE])
    | some lastE =>
      match Edge.commonParent s selfE lastE with
      | .error err => .error err
      | .ok (s', none) => .ok (s', edgeList ++ [selfE])
      | .ok (s', some common) => Edge.hoistInto fuel s' common edgeList.dropLast

/-- Edge.py `checkEndParents` (lines 593–631), first loop: while the first
and last edges have a common parent, replace the first by the parent and
drop the last. -/
def checkEndLoop1 (fuel : Nat) (s : State) (edges : List Nat) :
    Except GErr (State × List Nat) :=
  match fuel with
  | 0 => .error .fuelOut
  | fuel + 1 =>
    match edges with
    | [] => .error .listIndexErr
    | e0 :: rest =>
      match Edge.commonParent s e0 ((e0 :: rest).getLast (by simp)) with
      | .error err => .error err
      | .ok (s', none) => .ok (s', e0 :: rest)
      | .ok (s', some common) => checkEndLoop1 fuel s' ((common :: rest).dropLast)

/-- Edge.py `checkEndParents`, second loop: while the first two edges have
a common parent, merge them. -/
def checkEndLoop2 (fuel : Nat) (s : State) (edges : List Nat) :
    Except GErr (State × List Nat) :=
  match fuel with
  | 0 => .error .fuelOut
  | fuel + 1 =>
    match edges with
    | e0 :: e1 :: rest =>
      match Edge.commonParent s e0 e1 with
      | .error err => .error err
      | .ok (s', none) => .ok (s', e0 :: e1 :: rest)
      | .ok (s', some common) => checkEndLoop2 fuel s' (common :: rest)
    | _ => .error .listIndexErr

/-- Edge.py `checkEndParents` (lines 593–631). -/
def checkEndParents (fuel : Nat) (s : State) (edges : List Nat) :
    Except GErr (State × List Nat) :=
  match checkEndLoop1 fuel s edges with
  | .error err => .error err
  | .ok (s', edges') => checkEndLoop2 fuel s' edges'

/-- Plane.py `containsEdge` (lines 78–82): both ends lie in the plane. -/
def Plane.containsEdgeS (pl : Plane) (s : State) (eid : Nat) : Bool :=
  pl.containsPointV (s.vert (s.edge eid).end1) &&
  pl.containsPointV (s.vert (s.edge eid).end2)

/-- Polygon.py `__init__` (lines 54–72): record the edge list (unsplit)
and reject consecutive parallel edges. -/
def Polygon.init (s : State) (edges : List Nat) : Except GErr (State × Nat) :=
  let n := edges.length
  if (List.range n).any (fun i =>
      s.isParallelTo (edges.getD i 0) (edges.getD ((i + 1) % n) 0)) then
    .error .runtimeErr
  else
    .ok ({ s with polygons := s.polygons.push ⟨edges, none, none, none⟩ },
         s.polygons.size)

/-- Polygon.py `touchesPlane` (lines 322–328).  The length comparison is
over `ℤ` because Python's `len(self.edges) - 1` may be `-1`. -/
def Polygon.touchesPlane (s : State) (selfP : Nat)
    (onSideEdges offSideEdges splitterVertices : List Nat) : Bool :=
  ((onSideEdges.length : ℤ) = ((s.polygon selfP).edges.length : ℤ) - 1) &&
  offSideEdges.length = 1 &&
  splitterVertices.length = 2 &&
  (s.edge (offSideEdges.getD 0 0)).hasEnd (splitterVertices.getD 0 0) &&
  (s.edge (offSideEdges.getD 0 0)).hasEnd (splitterVertices.getD 1 0)

/-- Polygon.py `whichSide` (lines 340–363): classify by an approximate
centroid (a transient vertex in the source, never stored). -/
def Polygon.whichSide (s : State) (selfP : Nat) (pl : Plane) : ℤ :=
  let edges := (s.polygon selfP).edges
  let halfway := edges.length / 2
  let pt1 := s.vert (s.edge (edges.getD 0 0)).end1
  let pt2 := s.vert (s.edge (edges.getD 0 0)).end2
  let pt3 := s.vert (s.edge (edges.getD halfway 0)).end1
  let pt4 := s.vert (s.edge (edges.getD halfway 0)).end2
  pl.whichSideV ⟨(pt1.x + pt2.x + pt3.x + pt4.x) / 4,
                 (pt1.y + pt2.y + pt3.y + pt4.y) / 4,
                 (pt1.z + pt2.z + pt3.z + pt4.z) / 4⟩

/-- Polygon.py `getNormal` (lines 414–435). -/
def Polygon.getNormal (s : State) (selfP : Nat) (orientation : ℤ) : ℚ × ℚ × ℚ :=
  let edges := (s.polygon selfP).edges
  let normal := cross (s.vectorTo (edges.getD 0 0) (edges.getD 1 0))
                      (s.vectorTo (edges.getD 1 0) (edges.getD 2 0))
  if orientation < 0 then scale3 normal (-1) else normal

/-- Polygon.py `getOrientation` (lines 394–402). -/
def Polygon.getOrientation (s : State) (selfP : Nat) (reference : ℚ × ℚ × ℚ) : ℤ :=
  if dot3 (Polygon.getNormal s selfP 1) reference > 0 then 1 else -1

/-- Coordinate triple of a vertex (`Vertex.coordinates`, absent from the
superseded `src/OneLayer/Vertex.py`; trivially determined by its
callers). -/
def Vertex.coordinates (v : Vertex) : ℚ × ℚ × ℚ := (v.x, v.y, v.z)

/-- Polygon.py `plane` (lines 375–385): supporting plane through
`edges[0].end1` with normal `getNormal orientation`; errors when the
plane constructor's normalisation is irrational in the rational model. -/
def Polygon.planeOf (s : State) (selfP : Nat) (orientation : ℤ) : Except GErr Plane :=
  let normal := Polygon.getNormal s selfP orientation
  let d := dot3 normal (s.vert (s.edge ((s.polygon selfP).edges.getD 0 0)).end1).coordinates
  match Plane.ofCoefficients normal.1 normal.2.1 normal.2.2 d with
  | some pl => .ok pl
  | none => .error .irrationalPlane

/-- Polygon.py `sharedEdge` (lines 443–455). -/
def Polygon.sharedEdge (s : State) (selfP other : Nat) : Except GErr Nat :=
  match (s.polygon selfP).edges.find? (fun e => (s.polygon other).edges.contains e) with
  | some e => .ok e
  | none => .error .noSharedEdge

/-- Polygon.py `insertEdge` (lines 558–577): insert the new edge between
two circularly consecutive edges carrying its two endpoints. -/
def insertEdge (s : State) (newEdge : Nat) (edgeList : List Nat) :
    Except GErr (List Nat) :=
  let n := edgeList.length
  let e := s.edge newEdge
  match (List.range n).find? (fun i =>
      let cur := s.edge (edgeList.getD i 0)
      let nxt := s.edge (edgeList.getD ((i + 1) % n) 0)
      (cur.hasEnd e.end1 && nxt.hasEnd e.end2) ||
      (cur.hasEnd e.end2 && nxt.hasEnd e.end1)) with
  | some i => .ok (edgeList.take (i + 1) ++ [newEdge] ++ edgeList.drop (i + 1))
  | none => .error .noInsertionPoint

/-- Edge.py `parallelism e1 e2 < bound`, rendered squared. -/
def State.parallelismLt (s : State) (e1 e2 : Nat) (bound : ℚ) : Bool :=
  let a := s.vectorAlong e1
  let b := s.vectorAlong e2
  normSq3 (cross a b) < bound * bound * (normSq3 a * normSq3 b)

/-- Polygon.py `nearCollinear` (lines 586–601); the `< 0.03` parallelism
comparisons are rendered squared, and a missing `edges.index(e)` is an
error. -/
def nearCollinear (s : State) (e : Nat) (edges : List Nat) : Except GErr Bool :=
  match edges.indexOf? e with
  | none => .error .listIndexErr
  | some pos =>
    let n := edges.length
    .ok (s.parallelismLt (edges.getD ((pos + (n - 1)) % n) 0) e (3 / 100) ||
         s.parallelismLt e (edges.getD ((pos + 1) % n) 0) (3 / 100))

/-- Polygon.py `planeEdge` (lines 612–631). -/
def planeEdge (s : State) (frontSplitter backSplitter : Option Nat) :
    Except GErr (State × Option Nat) :=
  match frontSplitter with
  | none => .ok (s, backSplitter)
  | some fs =>
    match backSplitter with
    | none => .ok (s, some fs)
    | some bs =>
      match Edge.commonParent s fs bs with
      | .error err => .error err
      | .ok (s', some c) => .ok (s', some c)
      | .ok (_, none) => .error .planeEdgeErr

/-- Fold of `Edge.hoistInto` over a list: the `for … hoistInto` loops of
`makeSplitPolygon` and `Polyhedron.split`. -/
def hoistAll (fuel : Nat) (s : State) (src : List Nat) (acc : List Nat) :
    Except GErr (State × List Nat) :=
  match src with
  | [] => .ok (s, acc)
  | e :: rest => do
    let (s, acc) ← Edge.hoistInto fuel s e acc
    hoistAll fuel s rest acc

/-- Polygon.py `makeSplitPolygon` (lines 641–676). -/
def makeSplitPolygon (fuel : Nat) (s : State) (newFront newBack newSplitter : Nat) :
    Except GErr (State × Nat) := do
  let backEdges0 := (s.polygon newBack).edges
  let backEdges :=
    if dot3 (Polygon.getNormal s newFront 1) (Polygon.getNormal s newBack 1) < 0 then
      backEdges0.reverse
    else backEdges0
  let frontI ← match (s.polygon newFront).edges.indexOf? newSplitter with
               | some i => Except.ok i
               | none => Except.error GErr.listIndexErr
  let backI ← match backEdges.indexOf? newSplitter with
              | some i => Except.ok i
              | none => Except.error GErr.listIndexErr
  let hoistSrc := (s.polygon newFront).edges.take frontI ++ backEdges.drop (backI + 1)
                  ++ backEdges.take backI ++ (s.polygon newFront).edges.drop (frontI + 1)
  let (s, newEdges) ← hoistAll fuel s hoistSrc []
  let (s, newEdges) ← checkEndParents fuel s newEdges
  let (s, pid) ← Polygon.init s newEdges
  let s := s.setPolygon pid { s.polygon pid with
    front := some newFront, back := some newBack, splitterEdge := some newSplitter }
  .ok (s, pid)

/-- Edge-bucketing loop of Polygon.py `split` (lines 104–131): split each
boundary edge and collect front, back, in-plane edges and the distinct
splitter vertices. -/
def Polygon.splitEdgesLoop (fuel : Nat) (s : State) (edges : List Nat) (pl : Plane)
    (frontEdges backEdges inEdges splitterVertices : List Nat) :
    Except GErr (State × List Nat × List Nat × List Nat × List Nat) :=
  match edges with
  | [] => .ok (s, frontEdges, backEdges, inEdges, splitterVertices)
  | e :: rest => do
    let (s, r) ← Edge.split fuel s e pl
    let (frontPart, backPart, splitter) := r
    let (frontEdges, inEdges) :=
      match frontPart with
      | none => (frontEdges, inEdges)
      | some f =>
        if frontPart = backPart then (frontEdges, inEdges ++ [f])
        else (frontEdges ++ [f], inEdges)
    let backEdges :=
      match backPart with
      | none => backEdges
      | some b => if backPart = frontPart then backEdges else backEdges ++ [b]
    let splitterVertices :=
      match splitter with
      | none => splitterVertices
      | some sv =>
        if splitterVertices.contains sv then splitterVertices
        else splitterVertices ++ [sv]
    Polygon.splitEdgesLoop fuel s rest pl frontEdges backEdges inEdges splitterVertices

/-- Polygon.py `split` (lines 86–309). -/
def Polygon.split (fuel : Nat) (s : State) (selfP : Nat) (pl : Plane) :
    Except GErr (State × (Option Nat × Option Nat × Option Nat)) :=
  match fuel with
  | 0 => .error .fuelOut
  | fuel + 1 =>
    if (s.polygon selfP).edges.all (fun e => pl.containsEdgeS s e) then
      .ok (s, (some selfP, some selfP, none))
    else if (s.polygon selfP).front = none ∧ (s.polygon selfP).back = none then do
      let (s, frontEdges, backEdges, inEdges, splitterVertices) ←
        Polygon.splitEdgesLoop fuel s (s.polygon selfP).edges pl [] [] [] []
      if frontEdges.length ≥ 2 ∧ backEdges.length ≥ 2 ∧ splitterVertices.length = 2 then do
        let (s, splitterEdge) ←
          Edge.init s (splitterVertices.getD 0 0) (splitterVertices.getD 1 0)
        let frontEdges ← insertEdge s splitterEdge frontEdges
        let backEdges ← insertEdge s splitterEdge backEdges
        let _diag1 ← nearCollinear s splitterEdge frontEdges
        let _diag2 ← nearCollinear s splitterEdge backEdges
        let (s, frontP) ← Polygon.init s frontEdges
        let (s, backP) ← Polygon.init s backEdges
        let s := s.setPolygon selfP { s.polygon selfP with
          front := some frontP, back := some backP, splitterEdge := some splitterEdge }
        .ok (s, (some frontP, some backP, some splitterEdge))
      else if frontEdges.length ≥ 3 ∧ backEdges.length = 0 then
        .ok (s, (some selfP, none, none))
      else if backEdges.length ≥ 3 ∧ frontEdges.length = 0 then
        .ok (s, (none, some selfP, none))
      else if Polygon.touchesPlane s selfP frontEdges backEdges splitterVertices then
        .ok (s, (some selfP, none, some (backEdges.getD 0 0)))
      else if Polygon.touchesPlane s selfP frontEdges inEdges splitterVertices then
        .ok (s, (some selfP, none, some (inEdges.getD 0 0)))
      else if Polygon.touchesPlane s selfP backEdges frontEdges splitterVertices then
        .ok (s, (none, some selfP, some (frontEdges.getD 0 0)))
      else if Polygon.touchesPlane s selfP backEdges inEdges splitterVertices then
        .ok (s, (none, some selfP, some (inEdges.getD 0 0)))
      else .error .splitRuleErr
    else do
      let se ← expectSome (s.polygon selfP).splitterEdge
      if pl.containsEdgeS s se then do
        let fP ← expectSome (s.polygon selfP).front
        if Polygon.whichSide s fP pl > 0 then
          .ok (s, (some fP, (s.polygon selfP).back, some se))
        else
          .ok (s, ((s.polygon selfP).back, some fP, some se))
      else do
        let fP ← expectSome (s.polygon selfP).front
        let (s, rf) ← Polygon.split fuel s fP pl
        let (frontFront, frontBack, frontSplitter) := rf
        let bP ← expectSome (s.polygon selfP).back
        let (s, rb) ← Polygon.split fuel s bP pl
        let (backFront, backBack, backSplitter) := rb
        if frontFront = some fP ∧ frontBack = none ∧
            backFront = some bP ∧ backBack = none then do
          let (s, pe) ← planeEdge s frontSplitter backSplitter
          .ok (s, (some selfP, none, pe))
        else if frontFront = none ∧ frontBack = some fP ∧
            backFront = none ∧ backBack = some bP then do
          let (s, pe) ← planeEdge s frontSplitter backSplitter
          .ok (s, (none, some selfP, pe))
        else if frontFront = some fP ∧ frontBack = none ∧ frontSplitter = none ∧
            backFront ≠ none ∧ backBack ≠ none ∧ backSplitter ≠ none then do
          let bfE ← expectSome backFront
          let bbE ← expectSome backBack
          let (s, np) ← makeSplitPolygon fuel s fP bfE se
          .ok (s, (some np, some bbE, backSplitter))
        else if frontFront = none ∧ frontBack = some fP ∧ frontSplitter = none ∧
            backFront ≠ none ∧ backBack ≠ none ∧ backSplitter ≠ none then do
          let bfE ← expectSome backFront
          let bbE ← expectSome backBack
          let (s, np) ← makeSplitPolygon fuel s bbE fP se
          .ok (s, (some bfE, some np, backSplitter))
        else if frontFront ≠ none ∧ frontBack ≠ none ∧ frontSplitter ≠ none ∧
            backFront = some bP ∧ backBack = none ∧ backSplitter = none then do
          let ffE ← expectSome frontFront
          let fbE ← expectSome frontBack
          let (s, np) ← makeSplitPolygon fuel s ffE bP se
          .ok (s, (some np, some fbE, frontSplitter))
        else if frontFront ≠ none ∧ frontBack ≠ none ∧ frontSplitter ≠ none ∧
            backFront = none ∧ backBack = some bP ∧ backSplitter = none then do
          let ffE ← expectSome frontFront
          let fbE ← expectSome frontBack
          let (s, np) ← makeSplitPolygon fuel s fbE bP se
          .ok (s, (some ffE, some np, frontSplitter))
        else if frontFront ≠ none ∧ frontBack ≠ none ∧ frontSplitter ≠ none ∧
            backFront ≠ none ∧ backBack ≠ none ∧ backSplitter ≠ none then do
          let ffE ← expectSome frontFront
          let fbE ← expectSome frontBack
          let bfE ← expectSome backFront
          let bbE ← expectSome backBack
          let she1 ← Polygon.sharedEdge s ffE bfE
          let (s, np1) ← makeSplitPolygon fuel s ffE bfE she1
          let she2 ← Polygon.sharedEdge s fbE bbE
          let (s, np2) ← makeSplitPolygon fuel s fbE bbE she2
          let fsE ← expectSome frontSplitter
          let bsE ← expectSome backSplitter
          let (s, cp) ← Edge.commonParent s fsE bsE
          .ok (s, (some np1, some np2, cp))
        else
          .ok (s, (none, none, none))

/-- Allocate a face. -/
def State.newFace (s : State) (f : FaceRec) : State × Nat :=
  ({ s with faces := s.faces.push f }, s.faces.size)

/-- Modelled from the spec (§3, §4.4): a face's supporting plane is its
polygon's plane taken with the face's orientation, so that the plane's
normal is the face's outward normal (`Polyhedron.contains` and `clipTo`
rely on exactly this through `f.plane()`). -/
def Face.plane (s : State) (selfF : Nat) : Except GErr Plane :=
  Polygon.planeOf s (s.face selfF).polygon (s.face selfF).orientation

/-- Modelled from the spec (§4.4, with §4.3's coplanar convention, which
the superseded `src/OneLayer/Face.py` corroborates): `split` delegates to
the polygon's split.  When the polygon reports itself coplanar with the
plane (identical front and back results), the whole face lies on the back
("inside") if its outward normal points with the plane's normal, else on
the front.  Otherwise each non-`None` result polygon is wrapped in a new
`Face` carrying this face's `isSplitter` flag and `color`, with
orientation chosen so the child's normal matches this face's original
outward direction; the splitter edge passes through. -/
def Face.split (fuel : Nat) (s : State) (selfF : Nat) (pl : Plane) :
    Except GErr (State × (Option Nat × Option Nat × Option Nat)) := do
  let f := s.face selfF
  let (s, r) ← Polygon.split fuel s f.polygon pl
  let (pf, pb, se) := r
  if pf = pb ∧ pf ≠ none then
    if dot3 (Polygon.getNormal s f.polygon f.orientation) pl.normal3 > 0 then
      .ok (s, (none, some selfF, none))
    else
      .ok (s, (some selfF, none, none))
  else
    let outward := Polygon.getNormal s f.polygon f.orientation
    let (s, ff) :=
      match pf with
      | none => (s, none)
      | some p =>
        let (s1, fid) := State.newFace s
          ⟨f.isSplitterF, Polygon.getOrientation s p outward, p, f.color⟩
        (s1, some fid)
    let (s, bf) :=
      match pb with
      | none => (s, none)
      | some p =>
        let (s1, fid) := State.newFace s
          ⟨f.isSplitterF, Polygon.getOrientation s p outward, p, f.color⟩
        (s1, some fid)
    .ok (s, (ff, bf, se))

/-- EdgeDictionary.py `insert` (lines 88–94): file the edge under both of
its endpoints. -/
def EdgeDictionary.insert (d : EdgeDictionary) (s : State) (e : Nat) : EdgeDictionary :=
  (d.insertAtPoint e (s.edge e).end1).insertAtPoint e (s.edge e).end2

/-- Inner loop of Polyhedron.py `__init__` (lines 79–90): walk a face's
vertex indices, reusing an edge from the local dictionary or creating a
new one. -/
def Polyhedron.initFaceLoop (s : State) (dict : EdgeDictionary) (prevVertex : Nat)
    (idxs : List Nat) (vmap : List Nat) (polygonEdges : List Nat) :
    Except GErr (State × EdgeDictionary × List Nat) :=
  match idxs with
  | [] => .ok (s, dict, polygonEdges)
  | i :: rest =>
    let curVertex := vmap.getD i 0
    match dict.find2 prevVertex curVertex with
    | some curEdge =>
      Polyhedron.initFaceLoop s dict curVertex rest vmap (polygonEdges ++ [curEdge])
    | none => do
      let (s, curEdge) ← Edge.init s prevVertex curVertex
      let dict := dict.insert s curEdge
      Polyhedron.initFaceLoop s dict curVertex rest vmap (polygonEdges ++ [curEdge])

/-- Outer loop of Polyhedron.py `__init__` (lines 74–93): build each
face's polygon and wrap it in a non-splitter, positively oriented face. -/
def Polyhedron.initFacesLoop (s : State) (dict : EdgeDictionary)
    (faces : List (List Nat)) (vmap : List Nat) (color : ℕ) (acc : List Nat) :
    Except GErr (State × EdgeDictionary × List Nat) :=
  match faces with
  | [] => .ok (s, dict, acc)
  | face :: rest =>
    match face with
    | [] => .error .listIndexErr
    | f0 :: ftail => do
      let (s, dict, polygonEdges) ←
        Polyhedron.initFaceLoop s dict (vmap.getD f0 0) (ftail ++ [f0]) vmap []
      let (s, faceShape) ← Polygon.init s polygonEdges
      let (s, fid) := State.newFace s ⟨false, 1, faceShape, color⟩
      Polyhedron.initFacesLoop s dict rest vmap color (acc ++ [fid])

/-- Polyhedron.py `__init__` (lines 62–106): allocate the client's vertex
objects, build the face list, record color, unsplit. -/
def Polyhedron.init (s : State) (vertices : List Vertex) (faces : List (List Nat))
    (color : ℕ) : Except GErr (State × Nat) := do
  let vmap := (List.range vertices.length).map (fun i => s.verts.size + i)
  let s := { s with verts := vertices.foldl (fun a v => a.push v) s.verts }
  let (s, _, faceIds) ← Polyhedron.initFacesLoop s ⟨[]⟩ faces vmap color []
  let pid := s.polys.size
  .ok ({ s with polys := s.polys.push ⟨faceIds, color, none, none⟩ }, pid)

/-- Leaf case of Polyhedron.py `contains` (lines 126–136): the point must
not be strictly in front of any face plane. -/
def Polyhedron.containsFacesLoop (s : State) (faces : List Nat) (pt : Vertex) :
    Except GErr Bool :=
  match faces with
  | [] => .ok true
  | f :: rest => do
    let pl ← Face.plane s f
    if pl.whichSideV pt > 0 then .ok false
    else Polyhedron.containsFacesLoop s rest pt

/-- Polyhedron.py `contains` (lines 113–136). -/
def Polyhedron.contains (fuel : Nat) (s : State) (selfP : Nat) (point : Vertex) :
    Except GErr Bool :=
  match fuel with
  | 0 => .error .fuelOut
  | fuel + 1 =>
    let p := s.poly selfP
    if p.back ≠ none ∧ p.front ≠ none then do
      let b ← Polyhedron.contains fuel s (p.back.getD 0) point
      if b then .ok true
      else Polyhedron.contains fuel s (p.front.getD 0) point
    else
      Polyhedron.containsFacesLoop s p.faces point

/-- Polyhedron.py `isEmpty` (lines 434–436): fewer than 4 faces. -/
def Polyhedron.isEmpty (s : State) (selfP : Nat) : Bool :=
  (s.poly selfP).faces.length < 4

/-- Polyhedron.py `makeEmpty` (lines 443–445). -/
def Polyhedron.makeEmpty (s : State) (selfP : Nat) : State :=
  s.setPoly selfP { s.poly selfP with faces := [] }

/-- Polyhedron.py `setTo` (lines 421–426): shallow copy of the other
polyhedron's attributes into this one. -/
def Polyhedron.setTo (s : State) (selfP other : Nat) : State :=
  s.setPoly selfP (s.poly other)

/-- Polyhedron.py `simplify` (lines 388–411). -/
def Polyhedron.simplify (fuel : Nat) (s : State) (selfP : Nat) : Except GErr State :=
  match fuel with
  | 0 => .error .fuelOut
  | fuel + 1 => do
    let s ← match (s.poly selfP).front with
            | none => Except.ok s
            | some f => Polyhedron.simplify fuel s f
    let s ← match (s.poly selfP).back with
            | none => Except.ok s
            | some b => Polyhedron.simplify fuel s b
    if (s.poly selfP).front ≠ none ∧ (s.poly selfP).back ≠ none then
      if Polyhedron.isEmpty s ((s.poly selfP).back.getD 0) then
        .ok (Polyhedron.setTo s selfP ((s.poly selfP).front.getD 0))
      else if Polyhedron.isEmpty s ((s.poly selfP).front.getD 0) then
        .ok (Polyhedron.setTo s selfP ((s.poly selfP).back.getD 0))
      else .ok s
    else .ok s

/-- Face-splitting loop of Polyhedron.py `split` (lines 241–256). -/
def Polyhedron.splitFacesLoop (fuel : Nat) (s : State) (faces : List Nat) (pl : Plane)
    (frontFaces backFaces : List Nat) (splitterEdges : EdgeDictionary) :
    Except GErr (State × List Nat × List Nat × EdgeDictionary) :=
  match faces with
  | [] => .ok (s, frontFaces, backFaces, splitterEdges)
  | f :: rest => do
    let (s, r) ← Face.split fuel s f pl
    let (newFront, newBack, newSplitter) := r
    let frontFaces := match newFront with
      | none => frontFaces
      | some x => frontFaces ++ [x]
    let backFaces := match newBack with
      | none => backFaces
      | some x => backFaces ++ [x]
    let splitterEdges := match newSplitter with
      | none => splitterEdges
      | some x => splitterEdges.insert s x
    Polyhedron.splitFacesLoop fuel s rest pl frontFaces backFaces splitterEdges

/-- Splitter-edge stitching loop of Polyhedron.py `split` (lines
293–316): walk the loose splitter edges by shared vertices, hoisting each
into the polygon edge list, until back at the first edge.  An iteration
that fails to advance (the source only prints a diagnostic and spins)
exhausts the fuel. -/
def Polyhedron.stitchLoop (fuel : Nat) (s : State) (splitterEdges : EdgeDictionary)
    (polygonEdges : List Nat) (currentEdge : Nat) (prevEdge : Option Nat)
    (currentVertex : Nat) (firstEdge : Option Nat) :
    Except GErr (State × List Nat) :=
  match fuel with
  | 0 => .error .fuelOut
  | fuel + 1 =>
    if some currentEdge = firstEdge then .ok (s, polygonEdges)
    else do
      let firstEdge := match firstEdge with
        | none => some currentEdge
        | some fe => some fe
      let (s, polygonEdges) ← Edge.hoistInto fuel s currentEdge polygonEdges
      let nextVertex := (s.edge currentEdge).oppositeFrom currentVertex
      match (splitterEdges.find1 nextVertex).find? (fun e => e ≠ currentEdge) with
      | some e =>
        Polyhedron.stitchLoop fuel s splitterEdges polygonEdges e
          (some currentEdge) nextVertex firstEdge
      | none =>
        Polyhedron.stitchLoop fuel s splitterEdges polygonEdges currentEdge
          (some currentEdge) currentVertex firstEdge

/-- Polyhedron.py `split` (lines 232–374). -/
def Polyhedron.split (fuel : Nat) (s : State) (selfP : Nat) (pl : Plane) :
    Except GErr (State × (List Nat × List Nat × List Nat)) :=
  match fuel with
  | 0 => .error .fuelOut
  | fuel + 1 =>
    let p := s.poly selfP
    if p.front = none ∧ p.back = none then do
      let (s, frontFaces, backFaces, splitterEdges) ←
        Polyhedron.splitFacesLoop fuel s p.faces pl [] [] ⟨[]⟩
      if frontFaces.length > 0 ∧ backFaces.length ≤ 1 then
        .ok (s, ([selfP], [], []))
      else if frontFaces.length ≤ 1 ∧ backFaces.length > 0 then
        .ok (s, ([], [selfP], []))
      else do
        let currentEdge ← expectSome splitterEdges.element
        let (s, polygonEdges) ←
          Polyhedron.stitchLoop fuel s splitterEdges [] currentEdge none
            (s.edge currentEdge).end1 none
        let (s, checkedEdges) ← checkEndParents fuel s polygonEdges
        let (s, splitterPolygon) ← Polygon.init s checkedEdges
        let backOrientation := Polygon.getOrientation s splitterPolygon pl.normal3
        let (s, frontSeparator) :=
          State.newFace s ⟨true, -backOrientation, splitterPolygon, p.color⟩
        let (s, backSeparator) :=
          State.newFace s ⟨true, backOrientation, splitterPolygon, p.color⟩
        let (s, frontId) ← Polyhedron.init s [] [] p.color
        let (s, backId) ← Polyhedron.init s [] [] p.color
        let s := s.setPoly selfP
          { s.poly selfP with front := some frontId, back := some backId }
        let s := s.setPoly frontId
          { s.poly frontId with faces := frontFaces ++ [frontSeparator] }
        let s := s.setPoly backId
          { s.poly backId with faces := backFaces ++ [backSeparator] }
        .ok (s, ([frontId], [backId], [splitterPolygon]))
    else do
      let (s, fronts, backs, splitters) ←
        match p.front with
        | none => Except.ok (s, [], [], [])
        | some f => do
          let (s, r) ← Polyhedron.split fuel s f pl
          Except.ok (s, r.1, r.2.1, r.2.2)
      let (s, fronts, backs, splitters) ←
        match p.back with
        | none => Except.ok (s, fronts, backs, splitters)
        | some b => do
          let (s, r) ← Polyhedron.split fuel s b pl
          Except.ok (s, fronts ++ r.1, backs ++ r.2.1, splitters ++ r.2.2)
      .ok (s, (fronts, backs, splitters))

/-- Inner pass of `clipToPlanes`: split every worklist polyhedron by the
current plane, accumulating the back parts (lines 194–199). -/
def Polyhedron.splitAllByPlane (fuel : Nat) (s : State) (toSplit : List Nat)
    (pl : Plane) (acc : List Nat) : Except GErr (State × List Nat) :=
  match toSplit with
  | [] => .ok (s, acc)
  | p :: rest => do
    let (s, r) ← Polyhedron.split fuel s p pl
    Polyhedron.splitAllByPlane fuel s rest pl (acc ++ r.2.1)

/-- While-loop of Polyhedron.py `clipToPlanes` (lines 190–201).  Python's
`planes.pop()` removes and returns the LAST element of the list, so the
supplied planes are consumed back to front. -/
def Polyhedron.clipLoop (fuel : Nat) (s : State) (planes : List Plane)
    (toSplit : List Nat) : Except GErr (State × List Nat) :=
  match fuel with
  | 0 => .error .fuelOut
  | fuel + 1 =>
    if planes = [] ∨ toSplit = [] then .ok (s, toSplit)
    else
      match planes.getLast? with
      | none => .ok (s, toSplit)
      | some currentPlane => do
        let (s, nextToSplit) ← Polyhedron.splitAllByPlane fuel s toSplit currentPlane []
        Polyhedron.clipLoop fuel s planes.dropLast nextToSplit

/-- Final pass of `clipToPlanes` (lines 207–208): make every leftover
worklist polyhedron empty. -/
def Polyhedron.makeEmptyAll (s : State) (l : List Nat) : State :=
  match l with
  | [] => s
  | p :: rest => Polyhedron.makeEmptyAll (Polyhedron.makeEmpty s p) rest

/-- Polyhedron.py `clipToPlanes` (lines 173–219). -/
def Polyhedron.clipToPlanes (fuel : Nat) (s : State) (selfP : Nat)
    (planes : List Plane) : Except GErr State := do
  let (s, leftover) ← Polyhedron.clipLoop fuel s planes [selfP]
  let s := Polyhedron.makeEmptyAll s leftover
  Polyhedron.simplify fuel s selfP

/-- Plane list `[f.plane() for f in other.faces]` of `clipTo` (line 164). -/
def facePlanes (s : State) (faces : List Nat) (acc : List Plane) :
    Except GErr (List Plane) :=
  match faces with
  | [] => .ok acc
  | f :: rest => do
    let pl ← Face.plane s f
    facePlanes s rest (acc ++ [pl])

/-- Polyhedron.py `clipTo` (lines 144–164). -/
def Polyhedron.clipTo (fuel : Nat) (s : State) (selfP other : Nat) :
    Except GErr State :=
  match fuel with
  | 0 => .error .fuelOut
  | fuel + 1 => do
    let s ← match (s.poly other).front with
            | none => Except.ok s
            | some f => Polyhedron.clipTo fuel s selfP f
    let s ← match (s.poly other).back with
            | none => Except.ok s
            | some b => Polyhedron.clipTo fuel s selfP b
    if (s.poly other).front = none ∧ (s.poly other).back = none then do
      let planes ← facePlanes s (s.poly other).faces []
      Polyhedron.clipToPlanes fuel s selfP planes
    else .ok s

/-- Modelled from the spec (§4.5): the worklist pass of `clipToPlanes`
with the planes consumed one at a time in the order of the supplied list,
read front to back as claim C2 states it. -/
def clipLoopSpecOrdered (fuel : Nat) (s : State) (planes : List Plane)
    (toSplit : List Nat) : Except GErr (State × List Nat) :=
  match fuel with
  | 0 => .error .fuelOut
  | fuel + 1 =>
    if planes = [] ∨ toSplit = [] then .ok (s, toSplit)
    else
      match planes with
      | [] => .ok (s, toSplit)
      | currentPlane :: rest => do
        let (s, nextToSplit) ← Polyhedron.splitAllByPlane fuel s toSplit currentPlane []
        clipLoopSpecOrdered fuel s rest nextToSplit

/-- Modelled from the spec (§4.5): `clipToPlanes` as claim C2 describes
it — worklist starting `[self]`, planes consumed in the order of the
supplied list, every worklist polyhedron split, only back parts carried
forward, leftovers made explicitly empty, then `simplify`. -/
def clipToPlanesSpecOrdered (fuel : Nat) (s : State) (selfP : Nat)
    (planes : List Plane) : Except GErr State := do
  let (s, leftover) ← clipLoopSpecOrdered fuel s planes [selfP]
  let s := Polyhedron.makeEmptyAll s leftover
  Polyhedron.simplify fuel s selfP

/-- Vertices of the axis-aligned cube `[-c, c]³` in the index order used
by `cubeFaces`. -/
def cubeVertices (c : ℚ) : List Vertex :=
  [ ⟨-c, -c, -c⟩, ⟨c, -c, -c⟩, ⟨c, c, -c⟩, ⟨-c, c, -c⟩
  , ⟨-c, -c, c⟩, ⟨c, -c, c⟩, ⟨c, c, c⟩, ⟨-c, c, c⟩ ]

/-- Face index lists of the cube, counterclockwise from outside. -/
def cubeFaces : List (List Nat) :=
  [ [0, 3, 2, 1], [4, 5, 6, 7], [0, 1, 5, 4], [1, 2, 6, 5], [2, 3, 7, 6], [3, 0, 4, 7] ]


/-- Plane `x = -2` (unit normal `(1,0,0)`); the concrete cube below lies
entirely in front of it. -/
def c2planeFrontal : Plane := ⟨1, 0, 0, -2⟩

/-- Plane `x = 0` (unit normal `(1,0,0)`); it cuts the concrete cube. -/
def c2planeCut : Plane := ⟨1, 0, 0, 0⟩

/-- Heap after constructing the cube `[-1,1]³` (polyhedron id 0) in an
empty heap; checkpoint literal, certified by `c2_init`. -/
def c2L0 : State :=
  { verts := #[{ x := -1, y := -1, z := -1 }, { x := 1, y := -1, z := -1 }, { x := 1, y := 1, z := -1 },
               { x := -1, y := 1, z := -1 }, { x := -1, y := -1, z := 1 }, { x := 1, y := -1, z := 1 },
               { x := 1, y := 1, z := 1 }, { x := -1, y := 1, z := 1 }],
    edges := #[{ end1 := 0, end2 := 3, front := none, back := none, splitterVertex := none },
               { end1 := 3, end2 := 2, front := none, back := none, splitterVertex := none },
               { end1 := 2, end2 := 1, front := none, back := none, splitterVertex := none },
               { end1 := 1, end2 := 0, front := none, back := none, splitterVertex := none },
               { end1 := 4, end2 := 5, front := none, back := none, splitterVertex := none },
               { end1 := 5, end2 := 6, front := none, back := none, splitterVertex := none },
               { end1 := 6, end2 := 7, front := none, back := none, splitterVertex := none },
               { end1 := 7, end2 := 4, front := none, back := none, splitterVertex := none },
               { end1 := 1, end2 := 5, front := none, back := none, splitterVertex := none },
               { end1 := 4, end2 := 0, front := none, back := none, splitterVertex := none },
               { end1 := 2, end2 := 6, front := none, back := none, splitterVertex := none },
               { end1 := 3, end2 := 7, front := none, back := none, splitterVertex := none }],
    allEdges := { edges := [(0, [0, 3, 9]),
                            (3, [0, 1, 11]),
                            (2, [1, 2, 10]),
                            (1, [2, 3, 8]),
                            (4, [4, 7, 9]),
                            (5, [4, 5, 8]),
                            (6, [5, 6, 10]),
                            (7, [6, 7, 11])] },
    polygons := #[{ edges := [0, 1, 2, 3], front := none, back := none, splitterEdge := none },
                  { edges := [4, 5, 6, 7], front := none, back := none, splitterEdge := none },
                  { edges := [3, 8, 4, 9], front := none, back := none, splitterEdge := none },
                  { edges := [2, 10, 5, 8], front := none, back := none, splitterEdge := none },
                  { edges := [1, 11, 6, 10], front := none, back := none, splitterEdge := none },
                  { edges := [0, 9, 7, 11], front := none, back := none, splitterEdge := none }],
    faces := #[{ isSplitterF := false, orientation := 1, polygon := 0, color := 1 },
               { isSplitterF := false, orientation := 1, polygon := 1, color := 1 },
               { isSplitterF := false, orientation := 1, polygon := 2, color := 1 },
               { isSplitterF := false, orientation := 1, polygon := 3, color := 1 },
               { isSplitterF := false, orientation := 1, polygon := 4, color := 1 },
               { isSplitterF := false, orientation := 1, polygon := 5, color := 1 }],
    polys := #[{ faces := [0, 1, 2, 3, 4, 5], color := 1, front := none, back := none }] }

/-- Heap after splitting the cube by `c2planeCut`; checkpoint literal,
certified by `c2_pass1`. -/
def c2L1 : State :=
  { verts := #[{ x := -1, y := -1, z := -1 }, { x := 1, y := -1, z := -1 }, { x := 1, y := 1, z := -1 },
               { x := -1, y := 1, z := -1 }, { x := -1, y := -1, z := 1 }, { x := 1, y := -1, z := 1 },
               { x := 1, y := 1, z := 1 }, { x := -1, y := 1, z := 1 }, { x := 0, y := 1, z := -1 },
               { x := 0, y := -1, z := -1 }, { x := 0, y := -1, z := 1 }, { x := 0, y := 1, z := 1 }],
    edges := #[{ end1 := 0, end2 := 3, front := none, back := none, splitterVertex := none },
               { end1 := 3, end2 := 2, front := some 13, back := some 12, splitterVertex := some 8 },
               { end1 := 2, end2 := 1, front := none, back := none, splitterVertex := none },
               { end1 := 1, end2 := 0, front := some 14, back := some 15, splitterVertex := some 9 },
               { end1 := 4, end2 := 5, front := some 18, back := some 17, splitterVertex := some 10 },
               { end1 := 5, end2 := 6, front := none, back := none, splitterVertex := none },
               { end1 := 6, end2 := 7, front := some 19, back := some 20, splitterVertex := some 11 },
               { end1 := 7, end2 := 4, front := none, back := none, splitterVertex := none },
               { end1 := 1, end2 := 5, front := none, back := none, splitterVertex := none },
               { end1 := 4, end2 := 0, front := none, back := none, splitterVertex := none },
               { end1 := 2, end2 := 6, front := none, back := none, splitterVertex := none },
               { end1 := 3, end2 := 7, front := none, back := none, splitterVertex := none },
               { end1 := 3, end2 := 8, front := none, back := none, splitterVertex := none },
               { end1 := 2, end2 := 8, front := none, back := none, splitterVertex := none },
               { end1 := 1, end2 := 9, front := none, back := none, splitterVertex := none },
               { end1 := 0, end2 := 9, front := none, back := none, splitterVertex := none },
               { end1 := 8, end2 := 9, front := none, back := none, splitterVertex := none },
               { end1 := 4, end2 := 10, front := none, back := none, splitterVertex := none },
               { end1 := 5, end2 := 10, front := none, back := none, splitterVertex := none },
               { end1 := 6, end2 := 11, front := none, back := none, splitterVertex := none },
               { end1 := 7, end2 := 11, front := none, back := none, splitterVertex := none },
               { end1 := 10, end2 := 11, front := none, back := none, splitterVertex := none },
               { end1 := 9, end2 := 10, front := none, back := none, splitterVertex := none },
               { end1 := 8, end2 := 11, front := none, back := none, splitterVertex := none }],
    allEdges := { edges := [(0, [0, 3, 9, 15]),
                            (3, [0, 1, 11, 12]),
                            (2, [1, 2, 10, 13]),
                            (1, [2, 3, 8, 14]),
                            (4, [4, 7, 9, 17]),
                            (5, [4, 5, 8, 18]),
                            (6, [5, 6, 10, 19]),
                            (7, [6, 7, 11, 20]),
                            (8, [12, 13, 16, 23]),
                            (9, [14, 15, 16, 22]),
                            (10, [17, 18, 21, 22]),
                            (11, [19, 20, 21, 23])] },
    polygons := #[{ edges := [0, 1, 2, 3], front := some 6, back := some 7, splitterEdge := some 16 },
                  { edges := [4, 5, 6, 7], front := some 8, back := some 9, splitterEdge := some 21 },
                  { edges := [3, 8, 4, 9], front := some 10, back := some 11, splitterEdge := some 22 },
                  { edges := [2, 10, 5, 8], front := none, back := none, splitterEdge := none },
                  { edges := [1, 11, 6, 10], front := some 12, back := some 13, splitterEdge := some 23 },
                  { edges := [0, 9, 7, 11], front := none, back := none, splitterEdge := none },
                  { edges := [13, 2, 14, 16], front := none, back := none, splitterEdge := none },
                  { edges := [0, 12, 16, 15], front := none, back := none, splitterEdge := none },
                  { edges := [18, 5, 19, 21], front := none, back := none, splitterEdge := none },
                  { edges := [17, 21, 20, 7], front := none, back := none, splitterEdge := none },
                  { edges := [14, 8, 18, 22], front := none, back := none, splitterEdge := none },
                  { edges := [15, 22, 17, 9], front := none, back := none, splitterEdge := none },
                  { edges := [13, 23, 19, 10], front := none, back := none, splitterEdge := none },
                  { edges := [12, 11, 20, 23], front := none, back := none, splitterEdge := none },
                  { edges := [16, 22, 21, 23], front := none, back := none, splitterEdge := none }],
    faces := #[{ isSplitterF := false, orientation := 1, polygon := 0, color := 1 },
               { isSplitterF := false, orientation := 1, polygon := 1, color := 1 },
               { isSplitterF := false, orientation := 1, polygon := 2, color := 1 },
               { isSplitterF := false, orientation := 1, polygon := 3, color := 1 },
               { isSplitterF := false, orientation := 1, polygon := 4, color := 1 },
               { isSplitterF := false, orientation := 1, polygon := 5, color := 1 },
               { isSplitterF := false, orientation := 1, polygon := 6, color := 1 },
               { isSplitterF := false, orientation := 1, polygon := 7, color := 1 },
               { isSplitterF := false, orientation := 1, polygon := 8, color := 1 },
               { isSplitterF := false, orientation := 1, polygon := 9, color := 1 },
               { isSplitterF := false, orientation := 1, polygon := 10, color := 1 },
               { isSplitterF := false, orientation := 1, polygon := 11, color := 1 },
               { isSplitterF := false, orientation := 1, polygon := 3, color := 1 },
               { isSplitterF := false, orientation := 1, polygon := 12, color := 1 },
               { isSplitterF := false, orientation := 1, polygon := 13, color := 1 },
               { isSplitterF := false, orientation := 1, polygon := 5, color := 1 },
               { isSplitterF := true, orientation := 1, polygon := 14, color := 1 },
               { isSplitterF := true, orientation := -1, polygon := 14, color := 1 }],
    polys := #[{ faces := [0, 1, 2, 3, 4, 5], color := 1, front := some 1, back := some 2 },
               { faces := [6, 8, 10, 12, 13, 16], color := 1, front := none, back := none },
               { faces := [7, 9, 11, 14, 15, 17], color := 1, front := none, back := none }] }

/-- Heap after additionally splitting the back half (polyhedron 2) by
`c2planeFrontal`, which only wraps its six faces in new front faces;
certified by `c2_pass2`. -/
def c2L2 : State :=
  { c2L1 with faces :=
      [ (⟨false, 1, 7, 1⟩ : FaceRec), ⟨false, 1, 9, 1⟩, ⟨false, 1, 11, 1⟩,
        ⟨false, 1, 13, 1⟩, ⟨false, 1, 5, 1⟩, ⟨true, -1, 14, 1⟩ ].foldl (fun a f => a.push f) c2L1.faces }

/-- Heap after splitting the unsplit cube by `c2planeFrontal` (all faces
in front; six wrapper faces are allocated); certified by `c2_specPass`. -/
def c2S1 : State :=
  { c2L0 with faces :=
      [ (⟨false, 1, 0, 1⟩ : FaceRec), ⟨false, 1, 1, 1⟩, ⟨false, 1, 2, 1⟩,
        ⟨false, 1, 3, 1⟩, ⟨false, 1, 4, 1⟩, ⟨false, 1, 5, 1⟩ ].foldl (fun a f => a.push f) c2L0.faces }


/-- Vertices of a tetrahedron straddling the plane `x = 0`: two apexes on
the plane, one vertex on each side. -/
def tetraVertices : List Vertex :=
  [ ⟨-1, 0, 0⟩, ⟨1, 0, 0⟩, ⟨0, 1, 0⟩, ⟨0, 0, 1⟩ ]

/-- Face index lists of the tetrahedron. -/
def tetraFaces : List (List Nat) :=
  [ [0, 2, 1], [0, 1, 3], [1, 2, 3], [2, 0, 3] ]

/-- Heap after constructing the tetrahedron (polyhedron id 0) in an empty
heap; checkpoint literal certified by `tetra_init`. -/
def tetraL0 : State :=
  { verts := #[{ x := -1, y := 0, z := 0 }, { x := 1, y := 0, z := 0 }, { x := 0, y := 1, z := 0 },
               { x := 0, y := 0, z := 1 }],
    edges := #[{ end1 := 0, end2 := 2, front := none, back := none, splitterVertex := none },
               { end1 := 2, end2 := 1, front := none, back := none, splitterVertex := none },
               { end1 := 1, end2 := 0, front := none, back := none, splitterVertex := none },
               { end1 := 1, end2 := 3, front := none, back := none, splitterVertex := none },
               { end1 := 3, end2 := 0, front := none, back := none, splitterVertex := none },
               { end1 := 2, end2 := 3, front := none, back := none, splitterVertex := none }],
    allEdges := { edges := [(0, [0, 2, 4]), (2, [0, 1, 5]), (1, [1, 2, 3]), (3, [3, 4, 5])] },
    polygons := #[{ edges := [0, 1, 2], front := none, back := none, splitterEdge := none },
                  { edges := [2, 3, 4], front := none, back := none, splitterEdge := none },
                  { edges := [1, 5, 3], front := none, back := none, splitterEdge := none },
                  { edges := [0, 4, 5], front := none, back := none, splitterEdge := none }],
    faces := #[{ isSplitterF := false, orientation := 1, polygon := 0, color := 1 },
               { isSplitterF := false, orientation := 1, polygon := 1, color := 1 },
               { isSplitterF := false, orientation := 1, polygon := 2, color := 1 },
               { isSplitterF := false, orientation := 1, polygon := 3, color := 1 }],
    polys := #[{ faces := [0, 1, 2, 3], color := 1, front := none, back := none }] }

/-- One child slot of the (amended) polyhedron shape invariant: absent, or
a polyhedron of the given color stored in the arena. -/
def childOk (s : State) (c : Option Nat) (col : ℕ) : Bool :=
  match c with
  | none => true
  | some f => decide (f < s.polys.size) && decide ((s.poly f).color = col)

/-- Amended shape invariant of claim C9: every polyhedron node either has
no children or has both, and its children carry its color.  (The claimed
`faces = []` for internal nodes is refuted by
`C9_internal_faces_counterexample`; face lists are retained.) -/
def polyShapeWF (s : State) : Prop :=
  ∀ i, i < s.polys.size →
    ((s.poly i).front = none ↔ (s.poly i).back = none) ∧
    childOk s (s.poly i).front (s.poly i).color = true ∧
    childOk s (s.poly i).back (s.poly i).color = true

/-- Heap after splitting the tetrahedron by the plane `x = 0`; checkpoint
literal certified by `tetra_pass1`. -/
def tetraL1 : State :=
  { verts := #[{ x := -1, y := 0, z := 0 }, { x := 1, y := 0, z := 0 }, { x := 0, y := 1, z := 0 },
               { x := 0, y := 0, z := 1 }, { x := 0, y := 0, z := 0 }],
    edges := #[{ end1 := 0, end2 := 2, front := none, back := none, splitterVertex := none },
               { end1 := 2, end2 := 1, front := none, back := none, splitterVertex := none },
               { end1 := 1, end2 := 0, front := some 6, back := some 7, splitterVertex := some 4 },
               { end1 := 1, end2 := 3, front := none, back := none, splitterVertex := none },
               { end1 := 3, end2 := 0, front := none, back := none, splitterVertex := none },
               { end1 := 2, end2 := 3, front := none, back := none, splitterVertex := none },
               { end1 := 1, end2 := 4, front := none, back := none, splitterVertex := none },
               { end1 := 0, end2 := 4, front := none, back := none, splitterVertex := none },
               { end1 := 2, end2 := 4, front := none, back := none, splitterVertex := none },
               { end1 := 4, end2 := 3, front := none, back := none, splitterVertex := none }],
    allEdges := { edges := [(0, [0, 2, 4, 7]),
                            (2, [0, 1, 5, 8]),
                            (1, [1, 2, 3, 6]),
                            (3, [3, 4, 5, 9]),
                            (4, [6, 7, 8, 9])] },
    polygons := #[{ edges := [0, 1, 2], front := some 4, back := some 5, splitterEdge := some 8 },
                  { edges := [2, 3, 4], front := some 6, back := some 7, splitterEdge := some 9 },
                  { edges := [1, 5, 3], front := none, back := none, splitterEdge := none },
                  { edges := [0, 4, 5], front := none, back := none, splitterEdge := none },
                  { edges := [1, 8, 6], front := none, back := none, splitterEdge := none },
                  { edges := [0, 8, 7], front := none, back := none, splitterEdge := none },
                  { edges := [6, 9, 3], front := none, back := none, splitterEdge := none },
                  { edges := [7, 9, 4], front := none, back := none, splitterEdge := none },
                  { edges := [8, 9, 5], front := none, back := none, splitterEdge := none }],
    faces := #[{ isSplitterF := false, orientation := 1, polygon := 0, color := 1 },
               { isSplitterF := false, orientation := 1, polygon := 1, color := 1 },
               { isSplitterF := false, orientation := 1, polygon := 2, color := 1 },
               { isSplitterF := false, orientation := 1, polygon := 3, color := 1 },
               { isSplitterF := false, orientation := -1, polygon := 4, color := 1 },
               { isSplitterF := false, orientation := 1, polygon := 5, color := 1 },
               { isSplitterF := false, orientation := -1, polygon := 6, color := 1 },
               { isSplitterF := false, orientation := 1, polygon := 7, color := 1 },
               { isSplitterF := false, orientation := 1, polygon := 2, color := 1 },
               { isSplitterF := false, orientation := 1, polygon := 3, color := 1 },
               { isSplitterF := true, orientation := 1, polygon := 8, color := 1 },
               { isSplitterF := true, orientation := -1, polygon := 8, color := 1 }],
    polys := #[{ faces := [0, 1, 2, 3], color := 1, front := some 1, back := some 2 },
               { faces := [4, 6, 8, 10], color := 1, front := none, back := none },
               { faces := [5, 7, 9, 11], color := 1, front := none, back := none }] }

/-- Heap after the face loop of splitting the tetrahedron by
`c2planeFrontal` (all faces in front; four wrapper faces are allocated);
certified inside `C3_trivial_split_witness`. -/
def tetraF : State :=
  { tetraL0 with faces :=
      [ (⟨false, 1, 0, 1⟩ : FaceRec), ⟨false, 1, 1, 1⟩, ⟨false, 1, 2, 1⟩,
        ⟨false, 1, 3, 1⟩ ].foldl (fun a f => a.push f) tetraL0.faces }

/-- Concrete scenario for claim C1 (spec §8, concrete scenario 2): a small
cube A strictly inside a larger cube B, and the point `p = (10,0,0)`
strictly outside B.  Returns `A.contains p` before the clip and after
`A.clipTo(B)`. -/
def c1cubesExec : Except GErr (Bool × Bool × Bool) := do
  let (s, a) ← Polyhedron.init State.empty (cubeVertices (1/8)) cubeFaces 1
  let (s, b) ← Polyhedron.init s (cubeVertices 1) cubeFaces 2
  let before ← Polyhedron.contains 64 s a ⟨10, 0, 0⟩
  let outsideB ← Polyhedron.contains 64 s b ⟨10, 0, 0⟩
  let s ← Polyhedron.clipTo 64 s a b
  let after ← Polyhedron.contains 64 s a ⟨10, 0, 0⟩
  .ok (before, outsideB, after)

/-- Emptiness of A after the C1 clip: the root is an unsplit polyhedron
with an empty face list. -/
def c1cubesEmptyAfter : Except GErr (Bool × Nat × Bool) := do
  let (s, a) ← Polyhedron.init State.empty (cubeVertices (1/8)) cubeFaces 1
  let (s, b) ← Polyhedron.init s (cubeVertices 1) cubeFaces 2
  let s ← Polyhedron.clipTo 64 s a b
  .ok (Polyhedron.isEmpty s a, (s.poly a).faces.length, (s.poly a).front.isSome)



/-- One-step unfolding of `clipLoopSpecOrdered` at positive fuel. -/
theorem clipLoopSpecOrdered_succ (f : Nat) (s : State) (planes : List Plane)
    (ts : List Nat) :
    clipLoopSpecOrdered (f + 1) s planes ts =
      if planes = [] ∨ ts = [] then .ok (s, ts)
      else
        (match planes with
         | [] => .ok (s, ts)
         | currentPlane :: rest => do
            let (s, nextToSplit) ← Polyhedron.splitAllByPlane f s ts currentPlane []
            clipLoopSpecOrdered f s rest nextToSplit) := rfl

/-- The source loop of `clipToPlanes` equals the spec-ordered loop run on
the reversed plane list: Python's `planes.pop()` consumes the supplied
list back to front. -/
theorem clipLoop_eq_spec_reverse :
    ∀ (fuel : Nat) (s : State) (planes : List Plane) (ts : List Nat),
      Polyhedron.clipLoop fuel s planes ts = clipLoopSpecOrdered fuel s planes.reverse ts := by
  intro fuel
  induction fuel with
  | zero => intro s planes ts; rfl
  | succ f ih =>
    intro s planes ts
    rcases List.eq_nil_or_concat planes with h | ⟨d, l, h⟩
    · subst h
      simp [Polyhedron.clipLoop, clipLoopSpecOrdered_succ]
    · subst h
      rw [Polyhedron.clipLoop, clipLoopSpecOrdered_succ]
      simp only [List.concat_eq_append]
      have hrev : (d ++ [l]).reverse = l :: d.reverse := by simp
      rw [hrev]
      have hne : d ++ [l] ≠ [] := by simp
      have hcons : (l :: d.reverse : List Plane) ≠ [] := by simp
      by_cases hts : ts = []
      · simp [hts]
      · simp only [hne, hcons, hts, or_false, if_false, List.getLast?_concat,
          List.dropLast_concat]
        cases Polyhedron.splitAllByPlane f s ts l [] with
        | error e => rfl
        | ok r => exact ih r.1 d r.2

/-- C2: AMENDED.  `clipToPlanes` maintains a worklist starting `[self]`,
splits every worklist polyhedron by the current plane, carries only
back-of-plane parts forward, makes leftovers explicitly empty and
simplifies — but it consumes the supplied planes in REVERSE order of the
supplied list (Python's `list.pop()` removes the last element), not front
to back: it equals the spec-described algorithm run on the reversed plane
list. -/
theorem C2_clipToPlanes_reverse_order (fuel : Nat) (s : State) (selfP : Nat)
    (planes : List Plane) :
    Polyhedron.clipToPlanes fuel s selfP planes =
      clipToPlanesSpecOrdered fuel s selfP planes.reverse := by
  unfold Polyhedron.clipToPlanes clipToPlanesSpecOrdered
  rw [clipLoop_eq_spec_reverse]




/-- The `divisor` local variable of Plane.py `intersection` (line 125):
the plane number of the segment direction. -/
def Plane.divisor (pl : Plane) (p1 p2 : Vertex) : ℚ :=
  pl.planeNumber (p2.x - p1.x) (p2.y - p1.y) (p2.z - p1.z)

/-- `planeNumber` of a difference equals the difference of `planeZero`s:
the term-dropping tests depend only on the plane's coefficients, so they
agree across all evaluation points and the `D` term cancels. -/
theorem planeNumber_sub (pl : Plane) (p1 p2 : Vertex) :
    pl.planeNumber (p2.x - p1.x) (p2.y - p1.y) (p2.z - p1.z) =
      pl.planeZero p2.x p2.y p2.z - pl.planeZero p1.x p1.y p1.z := by
  unfold Plane.planeNumber Plane.planeZero
  by_cases hA : |pl.A| > zeroTolerance <;> by_cases hB : |pl.B| > zeroTolerance <;>
    by_cases hC : |pl.C| > zeroTolerance <;> by_cases hD : |pl.D| > zeroTolerance <;>
    simp [hA, hB, hC, hD] <;> ring

/-- `planeZero` is affine: its value at a convex combination of two points
is the same combination of its endpoint values. -/
theorem planeZero_lerp (pl : Plane) (p1 p2 : Vertex) (t : ℚ) :
    pl.planeZero ((1 - t) * p1.x + t * p2.x) ((1 - t) * p1.y + t * p2.y)
        ((1 - t) * p1.z + t * p2.z) =
      (1 - t) * pl.planeZero p1.x p1.y p1.z + t * pl.planeZero p2.x p2.y p2.z := by
  unfold Plane.planeZero
  by_cases hA : |pl.A| > zeroTolerance <;> by_cases hB : |pl.B| > zeroTolerance <;>
    by_cases hC : |pl.C| > zeroTolerance <;> by_cases hD : |pl.D| > zeroTolerance <;>
    simp [hA, hB, hC, hD] <;> ring

/-- A quantity that fails `isclose` to `0` exceeds the absolute tolerance
in magnitude. -/
theorem abs_gt_of_isclose_zero_false (d t : ℚ) (h : isclose d 0 t = false) :
    t < |d| := by
  unfold isclose at h
  rw [decide_eq_false_iff_not, not_le] at h
  simpa using lt_of_le_of_lt (le_max_right _ _) h

/-- Core estimate for a segment strictly straddling a plane: the divisor
`planeZero p2 - planeZero p1` is not close to zero, and the intersection
parameter lies strictly between 0 and 1. -/
theorem divisor_core (pz1 pz2 : ℚ)
    (h1 : planeTolerance < |pz1|) (h2 : planeTolerance < |pz2|)
    (hopp : pz1 * pz2 < 0) :
    isclose (pz2 - pz1) 0 zeroTolerance = false ∧
    0 < -pz1 / (pz2 - pz1) ∧ -pz1 / (pz2 - pz1) < 1 := by
  have htol : (0 : ℚ) < planeTolerance := by norm_num [planeTolerance]
  have hztol : zeroTolerance < planeTolerance := by
    norm_num [zeroTolerance, planeTolerance]
  have hsigns : (0 < pz1 ∧ pz2 < 0) ∨ (pz1 < 0 ∧ 0 < pz2) := by
    rcases lt_trichotomy pz1 0 with hn | hz | hp
    · right; exact ⟨hn, by nlinarith⟩
    · exfalso; rw [hz] at hopp; simp at hopp
    · left; exact ⟨hp, by nlinarith⟩
  have habs : 2 * planeTolerance < |pz2 - pz1| := by
    rcases hsigns with ⟨hp, hn⟩ | ⟨hp, hn⟩
    · rw [abs_of_pos hp] at h1
      rw [abs_of_neg hn] at h2
      rw [abs_of_neg (by linarith : pz2 - pz1 < 0)]
      linarith
    · rw [abs_of_neg hp] at h1
      rw [abs_of_pos hn] at h2
      rw [abs_of_pos (by linarith : 0 < pz2 - pz1)]
      linarith
  refine ⟨?_, ?_, ?_⟩
  · unfold isclose
    rw [decide_eq_false_iff_not, not_le]
    have h0 : 0 < |pz2 - pz1| := by linarith
    have hmax : max |pz2 - pz1| |(0 : ℚ)| = |pz2 - pz1| := by
      rw [abs_zero]
      exact max_eq_left (le_of_lt h0)
    have hr : relTol * max |pz2 - pz1| |(0 : ℚ)| < |pz2 - pz1| := by
      rw [hmax]
      have h1r : relTol * |pz2 - pz1| < 1 * |pz2 - pz1| :=
        mul_lt_mul_of_pos_right (by norm_num [relTol]) h0
      simpa using h1r
    have hz : zeroTolerance < |pz2 - pz1| := by linarith
    simpa using max_lt hr hz
  · rcases hsigns with ⟨hp, hn⟩ | ⟨hp, hn⟩
    · have hd : pz2 - pz1 < 0 := by linarith
      rw [div_pos_iff]
      right; constructor <;> linarith
    · have hd : 0 < pz2 - pz1 := by linarith
      rw [div_pos_iff]
      left; constructor <;> linarith
  · rcases hsigns with ⟨hp, hn⟩ | ⟨hp, hn⟩
    · have hd : pz2 - pz1 < 0 := by linarith
      rw [div_lt_one_of_neg hd]
      linarith
    · have hd : 0 < pz2 - pz1 := by linarith
      rw [div_lt_one hd]
      linarith

/-- A strict `whichSide` classification yields a strict tolerance bound on
`planeZero` and its sign. -/
theorem whichSideV_strict (pl : Plane) (p : Vertex) :
    (pl.whichSideV p = 1 →
      planeTolerance < |pl.planeZero p.x p.y p.z| ∧ 0 < pl.planeZero p.x p.y p.z) ∧
    (pl.whichSideV p = -1 →
      planeTolerance < |pl.planeZero p.x p.y p.z| ∧ pl.planeZero p.x p.y p.z < 0) := by
  constructor
  · intro h
    unfold Plane.whichSideV at h
    cases hc : isclose (pl.planeZero p.x p.y p.z) 0 planeTolerance with
    | true => rw [hc] at h; simp at h
    | false =>
      rw [hc] at h
      simp only [Bool.false_eq_true, if_false] at h
      have habs := abs_gt_of_isclose_zero_false _ _ hc
      by_cases hpos : pl.planeZero p.x p.y p.z > 0
      · exact ⟨habs, hpos⟩
      · rw [if_neg hpos] at h; norm_num at h
  · intro h
    unfold Plane.whichSideV at h
    cases hc : isclose (pl.planeZero p.x p.y p.z) 0 planeTolerance with
    | true => rw [hc] at h; simp at h
    | false =>
      rw [hc] at h
      simp only [Bool.false_eq_true, if_false] at h
      have habs := abs_gt_of_isclose_zero_false _ _ hc
      by_cases hpos : pl.planeZero p.x p.y p.z > 0
      · rw [if_pos hpos] at h; norm_num at h
      · refine ⟨habs, ?_⟩
        push_neg at hpos
        rcases lt_or_eq_of_le hpos with hlt | heq
        · exact hlt
        · exfalso
          have hlt0 : planeTolerance < 0 := by rw [heq] at habs; simpa using habs
          norm_num [planeTolerance] at hlt0

/-- `whichSide` only takes the values `0`, `1`, `-1`. -/
theorem whichSideV_cases (pl : Plane) (p : Vertex) :
    pl.whichSideV p = 0 ∨ pl.whichSideV p = 1 ∨ pl.whichSideV p = -1 := by
  unfold Plane.whichSideV
  split
  · exact Or.inl rfl
  · split
    · exact Or.inr (Or.inl rfl)
    · exact Or.inr (Or.inr rfl)

/-- A point whose `planeZero` vanishes exactly classifies as ON. -/
theorem whichSideV_zero_of_planeZero (pl : Plane) (v : Vertex)
    (h : pl.planeZero v.x v.y v.z = 0) : pl.whichSideV v = 0 := by
  unfold Plane.whichSideV
  rw [h]
  have hc : isclose 0 0 planeTolerance = true := by
    unfold isclose
    rw [decide_eq_true_eq]
    have h1 : (0 : ℚ) < planeTolerance := by norm_num [planeTolerance]
    simp
    try exact le_max_of_le_right (le_of_lt h1)
  simp [hc]

/-- Failing `isclose` to zero with a nonnegative tolerance forces a
nonzero value. -/
theorem ne_zero_of_isclose_zero_false (d t : ℚ) (h : isclose d 0 t = false)
    (ht : 0 ≤ t) : d ≠ 0 := by
  intro h0
  have habs := abs_gt_of_isclose_zero_false d t h
  rw [h0] at habs
  simp at habs
  linarith

/-- Endpoints strictly on opposite sides: the divisor avoids the zero
tolerance and the intersection parameter is strictly interior. -/
theorem strict_sides_divisor (pl : Plane) (p1 p2 : Vertex)
    (h : pl.whichSideV p1 * pl.whichSideV p2 < 0) :
    isclose (pl.divisor p1 p2) 0 zeroTolerance = false ∧
    0 < pl.interT p1 p2 ∧ pl.interT p1 p2 < 1 := by
  have hfacts : pl.planeZero p1.x p1.y p1.z * pl.planeZero p2.x p2.y p2.z < 0 ∧
      planeTolerance < |pl.planeZero p1.x p1.y p1.z| ∧
      planeTolerance < |pl.planeZero p2.x p2.y p2.z| := by
    rcases whichSideV_cases pl p1 with ha | ha | ha <;>
      rcases whichSideV_cases pl p2 with hb | hb | hb <;>
      rw [ha, hb] at h <;> norm_num at h
    · obtain ⟨hA, hP⟩ := (whichSideV_strict pl p1).1 ha
      obtain ⟨hB, hN⟩ := (whichSideV_strict pl p2).2 hb
      exact ⟨mul_neg_of_pos_of_neg hP hN, hA, hB⟩
    · obtain ⟨hA, hN⟩ := (whichSideV_strict pl p1).2 ha
      obtain ⟨hB, hP⟩ := (whichSideV_strict pl p2).1 hb
      exact ⟨mul_neg_of_neg_of_pos hN hP, hA, hB⟩
  obtain ⟨hm, hA, hB⟩ := hfacts
  have core := divisor_core _ _ hA hB hm
  unfold Plane.divisor Plane.interT
  rw [planeNumber_sub]
  exact core

/-- The intersection point at the interior parameter lies exactly in the
plane (in exact rational arithmetic). -/
theorem planeZero_at_interT (pl : Plane) (p1 p2 : Vertex)
    (hd : pl.divisor p1 p2 ≠ 0) :
    pl.planeZero ((1 - pl.interT p1 p2) * p1.x + pl.interT p1 p2 * p2.x)
        ((1 - pl.interT p1 p2) * p1.y + pl.interT p1 p2 * p2.y)
        ((1 - pl.interT p1 p2) * p1.z + pl.interT p1 p2 * p2.z) = 0 := by
  rw [planeZero_lerp]
  unfold Plane.interT
  unfold Plane.divisor at hd
  rw [planeNumber_sub] at hd ⊢
  field_simp
  ring


/-- C7: AMENDED.  `intersection` returns `None` exactly when the segment
is parallel to the plane (divisor within `zeroTolerance` of 0) or the
parameter `t` is outside `[0,1]` AND not within `planeTolerance` of 0 or
1; it returns the existing first (resp. second) endpoint when `t` is
within `planeTolerance` of 0 (resp. of 1, and not of 0) — even when `t`
lies outside `[0,1]`.  For endpoints strictly on opposite sides the
divisor is never parallel-small, `t` is strictly interior, the result is
never `None`, and whenever a NEW vertex is returned it is the exact
interpolation point and classifies as ON; the result may however also be
one of the existing endpoints (which need not classify ON). -/
theorem C7_intersection_tolerance_amended (pl : Plane) (p1 p2 : Vertex) :
    (pl.intersectionCase p1 p2 = ICase.noInter ↔
      isclose (pl.divisor p1 p2) 0 zeroTolerance = true ∨
      (isclose (pl.interT p1 p2) 0 planeTolerance = false ∧
       isclose (pl.interT p1 p2) 1 planeTolerance = false ∧
       ¬(0 < pl.interT p1 p2 ∧ pl.interT p1 p2 < 1))) ∧
    (pl.intersectionCase p1 p2 = ICase.endpt1 ↔
      isclose (pl.divisor p1 p2) 0 zeroTolerance = false ∧
      isclose (pl.interT p1 p2) 0 planeTolerance = true) ∧
    (pl.intersectionCase p1 p2 = ICase.endpt2 ↔
      isclose (pl.divisor p1 p2) 0 zeroTolerance = false ∧
      isclose (pl.interT p1 p2) 0 planeTolerance = false ∧
      isclose (pl.interT p1 p2) 1 planeTolerance = true) ∧
    (pl.whichSideV p1 * pl.whichSideV p2 < 0 →
      isclose (pl.divisor p1 p2) 0 zeroTolerance = false ∧
      0 < pl.interT p1 p2 ∧ pl.interT p1 p2 < 1 ∧
      pl.intersectionCase p1 p2 ≠ ICase.noInter ∧
      (∀ v, pl.intersectionCase p1 p2 = ICase.newPt v →
        pl.whichSideV v = 0 ∧
        v = ⟨(1 - pl.interT p1 p2) * p1.x + pl.interT p1 p2 * p2.x,
             (1 - pl.interT p1 p2) * p1.y + pl.interT p1 p2 * p2.y,
             (1 - pl.interT p1 p2) * p1.z + pl.interT p1 p2 * p2.z⟩)) := by
  have hcase : pl.intersectionCase p1 p2 =
      (if isclose (pl.divisor p1 p2) 0 zeroTolerance then ICase.noInter
       else if isclose (pl.interT p1 p2) 0 planeTolerance then ICase.endpt1
       else if isclose (pl.interT p1 p2) 1 planeTolerance then ICase.endpt2
       else if 0 < pl.interT p1 p2 ∧ pl.interT p1 p2 < 1 then
         ICase.newPt ⟨(1 - pl.interT p1 p2) * p1.x + pl.interT p1 p2 * p2.x,
                      (1 - pl.interT p1 p2) * p1.y + pl.interT p1 p2 * p2.y,
                      (1 - pl.interT p1 p2) * p1.z + pl.interT p1 p2 * p2.z⟩
       else ICase.noInter) := rfl
  refine ⟨?_, ?_, ?_, ?_⟩
  · rw [hcase]
    cases h1 : isclose (pl.divisor p1 p2) 0 zeroTolerance
    · cases h2 : isclose (pl.interT p1 p2) 0 planeTolerance
      · cases h3 : isclose (pl.interT p1 p2) 1 planeTolerance
        · by_cases h4 : 0 < pl.interT p1 p2 ∧ pl.interT p1 p2 < 1
          · simp [h4]
          · simp [h4]
        · simp
      · simp
    · simp
  · rw [hcase]
    cases h1 : isclose (pl.divisor p1 p2) 0 zeroTolerance
    · cases h2 : isclose (pl.interT p1 p2) 0 planeTolerance
      · cases h3 : isclose (pl.interT p1 p2) 1 planeTolerance
        · by_cases h4 : 0 < pl.interT p1 p2 ∧ pl.interT p1 p2 < 1
          · simp [h4]
          · simp [h4]
        · simp
      · simp
    · simp
  · rw [hcase]
    cases h1 : isclose (pl.divisor p1 p2) 0 zeroTolerance
    · cases h2 : isclose (pl.interT p1 p2) 0 planeTolerance
      · cases h3 : isclose (pl.interT p1 p2) 1 planeTolerance
        · by_cases h4 : 0 < pl.interT p1 p2 ∧ pl.interT p1 p2 < 1
          · simp [h4]
          · simp [h4]
        · simp
      · simp
    · simp
  · intro h
    obtain ⟨hng, ht0, ht1⟩ := strict_sides_divisor pl p1 p2 h
    have hd0 : pl.divisor p1 p2 ≠ 0 :=
      ne_zero_of_isclose_zero_false _ _ hng (by norm_num [zeroTolerance])
    refine ⟨hng, ht0, ht1, ?_, ?_⟩
    · rw [hcase]
      simp only [hng, Bool.false_eq_true, if_false]
      split
      · simp
      · split
        · simp
        · rw [if_pos ⟨ht0, ht1⟩]
          simp
    · intro v hv
      rw [hcase] at hv
      simp only [hng, Bool.false_eq_true, if_false] at hv
      split at hv
      · simp at hv
      · split at hv
        · simp at hv
        · rw [if_pos ⟨ht0, ht1⟩] at hv
          simp only [ICase.newPt.injEq] at hv
          refine ⟨?_, hv.symm⟩
          rw [← hv]
          exact whichSideV_zero_of_planeZero _ _ (planeZero_at_interT pl p1 p2 hd0)


/-- `List.lookup` over an association-list update that rewrites only the
entry with key `v`. -/
theorem lookup_map_update (l : List (Nat × List Nat)) (v : Nat)
    (g : List Nat → List Nat) :
    (l.map fun p => if p.1 = v then (p.1, g p.2) else p).lookup v =
      (l.lookup v).map g := by
  induction l with
  | nil => rfl
  | cons hd tl ih =>
    obtain ⟨k, xs⟩ := hd
    by_cases h : k = v
    · subst h
      simp only [List.map_cons, if_pos rfl]
      simp [List.lookup]
    · have h2 : (v == k) = false := by simp [Ne.symm h]
      simp only [List.map_cons, if_neg h]
      simp [List.lookup, h2, ih]

/-- `List.lookup` at a key different from the one being updated. -/
theorem lookup_map_update_other (l : List (Nat × List Nat)) (v w : Nat)
    (g : List Nat → List Nat) (h : w ≠ v) :
    (l.map fun p => if p.1 = v then (p.1, g p.2) else p).lookup w =
      l.lookup w := by
  induction l with
  | nil => rfl
  | cons hd tl ih =>
    obtain ⟨k, xs⟩ := hd
    by_cases h1 : k = v
    · subst h1
      have h2 : (w == k) = false := by simp [h]
      simp only [List.map_cons, if_pos rfl]
      simp [List.lookup, h2, ih]
    · by_cases h2 : k = w
      · subst h2
        simp only [List.map_cons, if_neg h1]
        simp [List.lookup, ih]
      · have h3 : (w == k) = false := by simp [Ne.symm h2]
        simp only [List.map_cons, if_neg h1]
        simp [List.lookup, h3, ih]

/-- `List.lookup` distributes over append. -/
theorem lookup_append (l1 l2 : List (Nat × List Nat)) (v : Nat) :
    (l1 ++ l2).lookup v =
      (match l1.lookup v with
       | some x => some x
       | none => l2.lookup v) := by
  induction l1 with
  | nil => rfl
  | cons hd tl ih =>
    obtain ⟨k, xs⟩ := hd
    by_cases h : k = v
    · subst h
      simp [List.lookup]
    · have h2 : (v == k) = false := by simp [Ne.symm h]
      simp [List.lookup, h2, ih]

/-- After `insertAtPoint e v`, the edge `e` is filed under `v`. -/
theorem find1_insertAtPoint_self (d : EdgeDictionary) (e v : Nat) :
    ((d.insertAtPoint e v).find1 v).contains e = true := by
  unfold EdgeDictionary.insertAtPoint EdgeDictionary.find1
  by_cases hl : (d.edges.lookup v).isSome
  · simp only [hl, if_true]
    rw [lookup_map_update d.edges v
      (fun xs => if xs.contains e = true then xs else xs ++ [e])]
    obtain ⟨xs, hxs⟩ := Option.isSome_iff_exists.mp hl
    rw [hxs]
    simp only [Option.map_some']
    by_cases hm : e ∈ xs
    · simp [hm]
    · simp [hm]
  · simp only [hl, if_false, Bool.false_eq_true]
    rw [lookup_append]
    rw [Option.not_isSome_iff_eq_none.mp hl]
    simp [List.lookup]

/-- `insertAtPoint e v` leaves every other key's edge set unchanged. -/
theorem find1_insertAtPoint_other (d : EdgeDictionary) (e v w : Nat) (h : w ≠ v) :
    (d.insertAtPoint e v).find1 w = d.find1 w := by
  unfold EdgeDictionary.insertAtPoint EdgeDictionary.find1
  by_cases hl : (d.edges.lookup v).isSome
  · simp only [hl, if_true]
    rw [lookup_map_update_other d.edges v w
      (fun xs => if xs.contains e = true then xs else xs ++ [e]) h]
  · simp only [hl, if_false, Bool.false_eq_true]
    rw [lookup_append]
    cases hw : d.edges.lookup w with
    | some xs => simp
    | none =>
      have h2 : (w == v) = false := by simp [h]
      simp [List.lookup, h2]

/-- `insertAtPoint` never removes an edge from any vertex's set. -/
theorem find1_insertAtPoint_mono (d : EdgeDictionary) (e e2 v w : Nat)
    (h : ((d.find1 w).contains e) = true) :
    (((d.insertAtPoint e2 v).find1 w).contains e) = true := by
  by_cases hvw : w = v
  · subst hvw
    unfold EdgeDictionary.find1 at h
    unfold EdgeDictionary.insertAtPoint EdgeDictionary.find1
    by_cases hl : (d.edges.lookup w).isSome
    · simp only [hl, if_true]
      rw [lookup_map_update d.edges w
        (fun xs => if xs.contains e2 = true then xs else xs ++ [e2])]
      obtain ⟨xs, hxs⟩ := Option.isSome_iff_exists.mp hl
      rw [hxs] at h ⊢
      simp only [Option.map_some']
      have hm : e ∈ xs := by simpa using h
      by_cases hc : e2 ∈ xs
      · simp [hc, hm]
      · simp [hc, hm]
    · rw [Option.not_isSome_iff_eq_none.mp hl] at h
      simp at h
  · rw [find1_insertAtPoint_other d e2 v w hvw]
    exact h

/-- C10: the Edge constructor raises exactly when the registry already has
an edge with these endpoints or the endpoints are closer than `0.00005`
(rendered squared); otherwise it allocates the unsplit edge and registers
it under both endpoints. -/
theorem C10_edge_constructor (s : State) (v1 v2 : Nat) :
    ((∃ err, Edge.init s v1 v2 = .error err) ↔
      (s.allEdges.find2 v1 v2).isSome = true ∨
      Vertex.distSq (s.vert v1) (s.vert v2) * (20000 * 20000) < 1) ∧
    ((s.allEdges.find2 v1 v2).isSome = false →
      ¬ Vertex.distSq (s.vert v1) (s.vert v2) * (20000 * 20000) < 1 →
      Edge.init s v1 v2 =
        .ok ({ s with
                edges := s.edges.push ⟨v1, v2, none, none, none⟩,
                allEdges := (s.allEdges.insertAtPoint s.edges.size v1).insertAtPoint
                  s.edges.size v2 },
             s.edges.size) ∧
      ((((s.allEdges.insertAtPoint s.edges.size v1).insertAtPoint
          s.edges.size v2).find1 v1).contains s.edges.size = true ∧
       (((s.allEdges.insertAtPoint s.edges.size v1).insertAtPoint
          s.edges.size v2).find1 v2).contains s.edges.size = true)) := by
  constructor
  · unfold Edge.init
    by_cases h1 : (s.allEdges.find2 v1 v2).isSome
    · simp [h1]
    · by_cases h2 : Vertex.distSq (s.vert v1) (s.vert v2) * (20000 * 20000) < 1
      · simp [h1, h2]
      · simp [h1, h2]
  · intro h1 h2
    refine ⟨?_, ?_, ?_⟩
    · unfold Edge.init
      simp only [h1, Bool.false_eq_true, if_false, h2]
    · by_cases hv : v1 = v2
      · subst hv
        exact find1_insertAtPoint_mono _ _ _ _ _ (find1_insertAtPoint_self _ _ _)
      · rw [find1_insertAtPoint_other _ _ _ _ hv]
        exact find1_insertAtPoint_self _ _ _
    · exact find1_insertAtPoint_self _ _ _



/-- `Edge.init` does not touch the polygon or polyhedron arenas. -/
theorem Edge.init_frame (s : State) (v1 v2 : Nat) (s' : State) (e : Nat)
    (h : Edge.init s v1 v2 = .ok (s', e)) :
    s'.polygons = s.polygons ∧ s'.polys = s.polys := by
  unfold Edge.init at h
  split at h
  · cases h
  · split at h
    · cases h
    · cases h
      exact ⟨rfl, rfl⟩

/-- `Plane.intersection` does not touch the polygon or polyhedron arenas. -/
theorem Plane.intersection_frame (pl : Plane) (s : State) (i1 i2 : Nat) :
    (pl.intersection s i1 i2).1.polygons = s.polygons ∧
    (pl.intersection s i1 i2).1.polys = s.polys := by
  unfold Plane.intersection
  split
  · exact ⟨rfl, rfl⟩
  · exact ⟨rfl, rfl⟩
  · exact ⟨rfl, rfl⟩
  · exact ⟨rfl, rfl⟩

/-- `makeSplitEdge` does not touch the polygon or polyhedron arenas. -/
theorem makeSplitEdge_frame (s : State) (nf nb : Nat) (nsp : Option Nat)
    (s' : State) (e : Nat) (h : makeSplitEdge s nf nb nsp = .ok (s', e)) :
    s'.polygons = s.polygons ∧ s'.polys = s.polys := by
  simp only [makeSplitEdge] at h
  repeat' split at h
  all_goals try cases h
  all_goals try exact ⟨rfl, rfl⟩
  all_goals (have hf := Edge.init_frame _ _ _ _ _ (by assumption); exact ⟨hf.1, hf.2⟩)

/-- `Edge.extendWith` does not touch the polygon or polyhedron arenas. -/
theorem Edge.extendWith_frame (s : State) (a b : Nat) (s' : State) (e : Nat)
    (h : Edge.extendWith s a b = .ok (s', e)) :
    s'.polygons = s.polygons ∧ s'.polys = s.polys := by
  unfold Edge.extendWith at h
  split at h
  · exact makeSplitEdge_frame _ _ _ _ _ _ h
  · split at h
    · exact makeSplitEdge_frame _ _ _ _ _ _ h
    · cases h

/-- `Edge.commonParent` does not touch the polygon or polyhedron arenas. -/
theorem Edge.commonParent_frame (s : State) (a b : Nat) (s' : State) (r : Option Nat)
    (h : Edge.commonParent s a b = .ok (s', r)) :
    s'.polygons = s.polygons ∧ s'.polys = s.polys := by
  simp only [Edge.commonParent] at h
  repeat' split at h
  all_goals try cases h
  all_goals try exact ⟨rfl, rfl⟩
  all_goals (have hf := Edge.extendWith_frame _ _ _ _ _ (by assumption); exact ⟨hf.1, hf.2⟩)


/-- Equation form of `Plane.intersection_frame`. -/
theorem Plane.intersection_frameE (pl : Plane) (s : State) (i1 i2 : Nat)
    (s' : State) (r : Option Nat) (h : pl.intersection s i1 i2 = (s', r)) :
    s'.polygons = s.polygons ∧ s'.polys = s.polys := by
  have hf := Plane.intersection_frame pl s i1 i2
  rw [h] at hf
  exact hf

/-- Success case of `Except` bind, as a rewrite rule. -/
theorem bind_ok_gerr {α β : Type} (a : α) (k : α → Except GErr β) :
    (Except.ok a : Except GErr α) >>= k = k a := rfl

/-- Failure case of `Except` bind, as a rewrite rule. -/
theorem bind_error_gerr {α β : Type} (e : GErr) (k : α → Except GErr β) :
    (Except.error e : Except GErr α) >>= k = Except.error e := rfl

set_option maxHeartbeats 2000000 in
/-- `Edge.splitFresh` does not touch the polygon or polyhedron arenas. -/
theorem Edge.splitFresh_frame (s : State) (selfE : Nat) (pl : Plane)
    (side1 side2 : ℤ) (s' : State) (r : Option Nat × Option Nat × Option Nat)
    (h : Edge.splitFresh s selfE pl side1 side2 = .ok (s', r)) :
    s'.polygons = s.polygons ∧ s'.polys = s.polys := by
  rw [Edge.splitFresh.eq_def] at h
  simp only [] at h
  rcases heqI : pl.intersection s (s.edge selfE).end1 (s.edge selfE).end2 with ⟨s1, osv⟩
  rw [heqI] at h
  have hfI := Plane.intersection_frameE _ _ _ _ _ _ heqI
  cases osv with
  | none => cases h
  | some sv =>
    simp only [] at h
    split at h
    · repeat' split at h
      all_goals cases h
      all_goals exact hfI
    · split at h
      · repeat' split at h
        all_goals cases h
        all_goals exact hfI
      · cases hm1 : Edge.init s1 (s.edge selfE).end1 sv with
        | error e1 => rw [hm1] at h; rw [bind_error_gerr] at h; cases h
        | ok a1 =>
          rw [hm1] at h
          obtain ⟨s2, sub1⟩ := a1
          have hf1 := Edge.init_frame _ _ _ _ _ hm1
          rw [bind_ok_gerr] at h
          cases hm2 : Edge.init s2 (s.edge selfE).end2 sv with
          | error e2 => rw [hm2] at h; rw [bind_error_gerr] at h; cases h
          | ok a2 =>
            rw [hm2] at h
            obtain ⟨s3, sub2⟩ := a2
            have hf2 := Edge.init_frame _ _ _ _ _ hm2
            rw [bind_ok_gerr] at h
            split at h
            all_goals cases h
            all_goals exact ⟨(hf2.1.trans hf1.1).trans hfI.1,
              (hf2.2.trans hf1.2).trans hfI.2⟩

set_option maxHeartbeats 2000000 in
/-- `Edge.splitCombineBack` does not touch the polygon or polyhedron
arenas. -/
theorem Edge.splitCombineBack_frame (s : State) (selfE backE : Nat)
    (r : Option Nat × Option Nat × Option Nat) (s' : State)
    (res : Option Nat × Option Nat × Option Nat)
    (h : Edge.splitCombineBack s selfE backE r = .ok (s', res)) :
    s'.polygons = s.polygons ∧ s'.polys = s.polys := by
  obtain ⟨bf, bb, bs⟩ := r
  rw [Edge.splitCombineBack.eq_def] at h
  simp only [] at h
  split at h
  · obtain ⟨hbf, hbb, hbs⟩ := (by assumption : ¬bf = none ∧ ¬bb = none ∧ ¬bs = none)
    obtain ⟨bfE, rfl⟩ := Option.ne_none_iff_exists'.mp hbf
    obtain ⟨bbE, rfl⟩ := Option.ne_none_iff_exists'.mp hbb
    simp only [expectSome, bind_ok_gerr] at h
    split at h
    · cases hfr : (s.edge selfE).front with
      | none => rw [hfr] at h; simp only [expectSome, bind_error_gerr] at h; cases h
      | some fE =>
        rw [hfr] at h
        simp only [expectSome, bind_ok_gerr] at h
        cases hm : makeSplitEdge s fE bfE (s.edge selfE).splitterVertex with
        | error e1 => rw [hm] at h; rw [bind_error_gerr] at h; cases h
        | ok d =>
          rw [hm] at h
          rw [bind_ok_gerr] at h
          cases h
          exact makeSplitEdge_frame _ _ _ _ _ _ hm
    · cases hfr : (s.edge selfE).front with
      | none => rw [hfr] at h; simp only [expectSome, bind_error_gerr] at h; cases h
      | some fE =>
        rw [hfr] at h
        simp only [expectSome, bind_ok_gerr] at h
        cases hm : makeSplitEdge s bbE fE (s.edge selfE).splitterVertex with
        | error e1 => rw [hm] at h; rw [bind_error_gerr] at h; cases h
        | ok d =>
          rw [hm] at h
          rw [bind_ok_gerr] at h
          cases h
          exact makeSplitEdge_frame _ _ _ _ _ _ hm
  · split at h
    · cases h; exact ⟨rfl, rfl⟩
    · split at h
      · cases h; exact ⟨rfl, rfl⟩
      · cases h

set_option maxHeartbeats 2000000 in
/-- `Edge.splitCombineFront` does not touch the polygon or polyhedron
arenas. -/
theorem Edge.splitCombineFront_frame (s : State) (selfE frontE : Nat)
    (r : Option Nat × Option Nat × Option Nat) (s' : State)
    (res : Option (Option Nat × Option Nat × Option Nat))
    (h : Edge.splitCombineFront s selfE frontE r = .ok (s', res)) :
    s'.polygons = s.polygons ∧ s'.polys = s.polys := by
  obtain ⟨ff, fb, fs⟩ := r
  rw [Edge.splitCombineFront.eq_def] at h
  simp only [] at h
  split at h
  · obtain ⟨hff, hfb, hfs⟩ := (by assumption : ¬ff = none ∧ ¬fb = none ∧ ¬fs = none)
    obtain ⟨ffE, rfl⟩ := Option.ne_none_iff_exists'.mp hff
    obtain ⟨fbE, rfl⟩ := Option.ne_none_iff_exists'.mp hfb
    simp only [expectSome, bind_ok_gerr] at h
    split at h
    · cases hbk : (s.edge selfE).back with
      | none => rw [hbk] at h; simp only [expectSome, bind_error_gerr] at h; cases h
      | some bE =>
        rw [hbk] at h
        simp only [expectSome, bind_ok_gerr] at h
        cases hm : makeSplitEdge s bE ffE (s.edge selfE).splitterVertex with
        | error e1 => rw [hm] at h; rw [bind_error_gerr] at h; cases h
        | ok d =>
          rw [hm] at h
          rw [bind_ok_gerr] at h
          cases h
          exact makeSplitEdge_frame _ _ _ _ _ _ hm
    · cases hbk : (s.edge selfE).back with
      | none => rw [hbk] at h; simp only [expectSome, bind_error_gerr] at h; cases h
      | some bE =>
        rw [hbk] at h
        simp only [expectSome, bind_ok_gerr] at h
        cases hm : makeSplitEdge s fbE bE (s.edge selfE).splitterVertex with
        | error e1 => rw [hm] at h; rw [bind_error_gerr] at h; cases h
        | ok d =>
          rw [hm] at h
          rw [bind_ok_gerr] at h
          cases h
          exact makeSplitEdge_frame _ _ _ _ _ _ hm
  · repeat' split at h
    all_goals cases h
    all_goals exact ⟨rfl, rfl⟩

set_option maxHeartbeats 4000000 in
/-- `Edge.split` does not touch the polygon or polyhedron arenas. -/
theorem Edge.split_frame :
    ∀ (fuel : Nat) (s : State) (eid : Nat) (pl : Plane) (s' : State)
      (r : Option Nat × Option Nat × Option Nat),
      Edge.split fuel s eid pl = .ok (s', r) →
      s'.polygons = s.polygons ∧ s'.polys = s.polys := by
  intro fuel
  induction fuel with
  | zero => intro s eid pl s' r h; cases h
  | succ f ih =>
    intro s eid pl s' r h
    rw [Edge.split] at h
    simp only [] at h
    repeat' split at h
    all_goals try cases h
    all_goals try exact ⟨rfl, rfl⟩
    all_goals try exact Edge.splitFresh_frame _ _ _ _ _ _ _ h
    · rename_i backE hqB
      cases hs1 : Edge.split f s backE pl with
      | error e1 => rw [hs1] at h; rw [bind_error_gerr] at h; cases h
      | ok a =>
        rw [hs1] at h
        rw [bind_ok_gerr] at h
        obtain ⟨s1, r1⟩ := a
        simp only [] at h
        have h1 := ih _ _ _ _ _ hs1
        have h2 := Edge.splitCombineBack_frame _ _ _ _ _ _ h
        exact ⟨h2.1.trans h1.1, h2.2.trans h1.2⟩
    · rename_i frontE hqF
      cases hs1 : Edge.split f s frontE pl with
      | error e1 => rw [hs1] at h; rw [bind_error_gerr] at h; cases h
      | ok a =>
        rw [hs1] at h
        rw [bind_ok_gerr] at h
        obtain ⟨s1, r1⟩ := a
        simp only [] at h
        have h1 := ih _ _ _ _ _ hs1
        cases hc : Edge.splitCombineFront s1 eid frontE r1 with
        | error e2 => rw [hc] at h; rw [bind_error_gerr] at h; cases h
        | ok b =>
          rw [hc] at h
          rw [bind_ok_gerr] at h
          obtain ⟨s2, res?⟩ := b
          simp only [] at h
          have h2 := Edge.splitCombineFront_frame _ _ _ _ _ _ hc
          cases res? with
          | some res =>
            cases h
            exact ⟨h2.1.trans h1.1, h2.2.trans h1.2⟩
          | none =>
            simp only [] at h
            cases hbk : (s2.edge eid).back with
            | none => rw [hbk] at h; cases h
            | some backE =>
              rw [hbk] at h
              simp only [] at h
              cases hs2 : Edge.split f s2 backE pl with
              | error e3 => rw [hs2] at h; rw [bind_error_gerr] at h; cases h
              | ok c =>
                rw [hs2] at h
                rw [bind_ok_gerr] at h
                obtain ⟨s3, r3⟩ := c
                simp only [] at h
                have h3 := ih _ _ _ _ _ hs2
                have h4 := Edge.splitCombineBack_frame _ _ _ _ _ _ h
                exact ⟨(h4.1.trans h3.1).trans (h2.1.trans h1.1),
                       (h4.2.trans h3.2).trans (h2.2.trans h1.2)⟩

/-- `Except` bind written as a match, for rewriting do-blocks. -/
theorem bind_eq_match_gerr {α β : Type} (x : Except GErr α) (k : α → Except GErr β) :
    x >>= k = (match x with
               | .error e => .error e
               | .ok a => k a) := by
  cases x <;> rfl

set_option maxHeartbeats 2000000 in
/-- `Edge.hoistInto` does not touch the polygon or polyhedron arenas. -/
theorem Edge.hoistInto_frame :
    ∀ (fuel : Nat) (s : State) (e : Nat) (el : List Nat) (s' : State) (l' : List Nat),
      Edge.hoistInto fuel s e el = .ok (s', l') →
      s'.polygons = s.polygons ∧ s'.polys = s.polys := by
  intro fuel
  induction fuel with
  | zero => intro s e el s' l' h; cases h
  | succ f ih =>
    intro s e el s' l' h
    rw [Edge.hoistInto] at h
    repeat' split at h
    all_goals try cases h
    all_goals try exact ⟨rfl, rfl⟩
    all_goals try
      (have hf := Edge.commonParent_frame _ _ _ _ _ (by assumption)
       exact ⟨hf.1, hf.2⟩)
    all_goals
      (have h1 := ih _ _ _ _ _ h
       have h2 := Edge.commonParent_frame _ _ _ _ _ (by assumption)
       exact ⟨h1.1.trans h2.1, h1.2.trans h2.2⟩)

set_option maxHeartbeats 2000000 in
/-- `checkEndLoop1` does not touch the polygon or polyhedron arenas. -/
theorem checkEndLoop1_frame :
    ∀ (fuel : Nat) (s : State) (el : List Nat) (s' : State) (l' : List Nat),
      checkEndLoop1 fuel s el = .ok (s', l') →
      s'.polygons = s.polygons ∧ s'.polys = s.polys := by
  intro fuel
  induction fuel with
  | zero => intro s el s' l' h; cases h
  | succ f ih =>
    intro s el s' l' h
    rw [checkEndLoop1.eq_def] at h
    simp only [] at h
    cases el with
    | nil => cases h
    | cons e0 rest =>
      simp only [] at h
      split at h
      · cases h
      · cases h
        have hf := Edge.commonParent_frame _ _ _ _ _ (by assumption)
        exact ⟨hf.1, hf.2⟩
      · have h1 := ih _ _ _ _ h
        have h2 := Edge.commonParent_frame _ _ _ _ _ (by assumption)
        exact ⟨h1.1.trans h2.1, h1.2.trans h2.2⟩

set_option maxHeartbeats 2000000 in
/-- `checkEndLoop2` does not touch the polygon or polyhedron arenas. -/
theorem checkEndLoop2_frame :
    ∀ (fuel : Nat) (s : State) (el : List Nat) (s' : State) (l' : List Nat),
      checkEndLoop2 fuel s el = .ok (s', l') →
      s'.polygons = s.polygons ∧ s'.polys = s.polys := by
  intro fuel
  induction fuel with
  | zero => intro s el s' l' h; cases h
  | succ f ih =>
    intro s el s' l' h
    rw [checkEndLoop2.eq_def] at h
    simp only [] at h
    cases el with
    | nil => cases h
    | cons e0 tl =>
      cases tl with
      | nil => cases h
      | cons e1 rest =>
        simp only [] at h
        split at h
        · cases h
        · cases h
          have hf := Edge.commonParent_frame _ _ _ _ _ (by assumption)
          exact ⟨hf.1, hf.2⟩
        · have h1 := ih _ _ _ _ h
          have h2 := Edge.commonParent_frame _ _ _ _ _ (by assumption)
          exact ⟨h1.1.trans h2.1, h1.2.trans h2.2⟩

/-- `checkEndParents` does not touch the polygon or polyhedron arenas. -/
theorem checkEndParents_frame (fuel : Nat) (s : State) (el : List Nat)
    (s' : State) (l' : List Nat) (h : checkEndParents fuel s el = .ok (s', l')) :
    s'.polygons = s.polygons ∧ s'.polys = s.polys := by
  unfold checkEndParents at h
  split at h
  · cases h
  · have h1 := checkEndLoop1_frame _ _ _ _ _ (by assumption)
    have h2 := checkEndLoop2_frame _ _ _ _ _ h
    exact ⟨h2.1.trans h1.1, h2.2.trans h1.2⟩

set_option maxHeartbeats 2000000 in
/-- `hoistAll` does not touch the polygon or polyhedron arenas. -/
theorem hoistAll_frame :
    ∀ (src : List Nat) (fuel : Nat) (s : State) (acc : List Nat) (s' : State)
      (l' : List Nat),
      hoistAll fuel s src acc = .ok (s', l') →
      s'.polygons = s.polygons ∧ s'.polys = s.polys := by
  intro src
  induction src with
  | nil =>
    intro fuel s acc s' l' h
    rw [hoistAll] at h
    cases h
    exact ⟨rfl, rfl⟩
  | cons e rest ihr =>
    intro fuel s acc s' l' h
    rw [hoistAll] at h
    simp only [bind_eq_match_gerr] at h
    repeat' split at h
    all_goals try cases h
    all_goals
      (have h1 := Edge.hoistInto_frame _ _ _ _ _ _ (by assumption)
       have h2 := ihr _ _ _ _ _ h
       exact ⟨h2.1.trans h1.1, h2.2.trans h1.2⟩)

/-- Inversion of a successful `Polygon.init`. -/
theorem Polygon.init_ok (s : State) (edges : List Nat) (s' : State) (p : Nat)
    (h : Polygon.init s edges = .ok (s', p)) :
    s' = { s with polygons := s.polygons.push ⟨edges, none, none, none⟩ } ∧
    p = s.polygons.size := by
  unfold Polygon.init at h
  simp only [] at h
  split at h
  · cases h
  · cases h; exact ⟨rfl, rfl⟩

set_option maxHeartbeats 2000000 in
/-- `makeSplitPolygon` does not touch the polyhedron arena. -/
theorem makeSplitPolygon_polys (fuel : Nat) (s : State) (nf nb nsp : Nat)
    (s' : State) (p : Nat) (h : makeSplitPolygon fuel s nf nb nsp = .ok (s', p)) :
    s'.polys = s.polys := by
  rw [makeSplitPolygon.eq_def] at h
  simp only [bind_eq_match_gerr] at h
  repeat' split at h
  all_goals try cases h
  all_goals
    (have h1 := hoistAll_frame _ _ _ _ _ _ (by assumption)
     have h2 := checkEndParents_frame _ _ _ _ _ (by assumption)
     have h3 := Polygon.init_ok _ _ _ _ (by assumption)
     have h4 := congrArg State.polys h3.1
     exact h4.trans (h2.2.trans h1.2))

set_option maxHeartbeats 4000000 in
/-- `Polygon.splitEdgesLoop` does not touch the polygon or polyhedron
arenas. -/
theorem Polygon.splitEdgesLoop_frame :
    ∀ (edges : List Nat) (fuel : Nat) (s : State) (pl : Plane)
      (fe be ie svs : List Nat) (s' : State)
      (r : List Nat × List Nat × List Nat × List Nat),
      Polygon.splitEdgesLoop fuel s edges pl fe be ie svs = .ok (s', r) →
      s'.polygons = s.polygons ∧ s'.polys = s.polys := by
  intro edges
  induction edges with
  | nil =>
    intro fuel s pl fe be ie svs s' r h
    rw [Polygon.splitEdgesLoop] at h
    cases h
    exact ⟨rfl, rfl⟩
  | cons e rest ihr =>
    intro fuel s pl fe be ie svs s' r h
    rw [Polygon.splitEdgesLoop] at h
    simp only [bind_eq_match_gerr] at h
    repeat' split at h
    all_goals try cases h
    all_goals
      (have h1 := Edge.split_frame _ _ _ _ _ _ (by assumption)
       have h2 := ihr _ _ _ _ _ _ _ _ _ h
       exact ⟨h2.1.trans h1.1, h2.2.trans h1.2⟩)

set_option maxHeartbeats 2000000 in
/-- `planeEdge` does not touch the polygon or polyhedron arenas. -/
theorem planeEdge_frame (s : State) (fs bs : Option Nat) (s' : State)
    (r : Option Nat) (h : planeEdge s fs bs = .ok (s', r)) :
    s'.polygons = s.polygons ∧ s'.polys = s.polys := by
  unfold planeEdge at h
  repeat' split at h
  all_goals try cases h
  all_goals try exact ⟨rfl, rfl⟩
  all_goals
    (have hf := Edge.commonParent_frame _ _ _ _ _ (by assumption)
     exact ⟨hf.1, hf.2⟩)

set_option maxHeartbeats 8000000 in
/-- `Polygon.split` does not touch the polyhedron arena. -/
theorem Polygon.split_polys :
    ∀ (fuel : Nat) (s : State) (selfP : Nat) (pl : Plane) (s' : State)
      (r : Option Nat × Option Nat × Option Nat),
      Polygon.split fuel s selfP pl = .ok (s', r) → s'.polys = s.polys := by
  intro fuel
  induction fuel with
  | zero => intro s p pl s' r h; cases h
  | succ f ih =>
    intro s p pl s' r h
    rw [Polygon.split] at h
    by_cases hcop : ((s.polygon p).edges.all (fun e => pl.containsEdgeS s e)) = true
    · rw [if_pos hcop] at h; cases h; rfl
    · rw [if_neg hcop] at h
      by_cases hun : ((s.polygon p).front = none ∧ (s.polygon p).back = none)
      · -- unsplit polygon: splitEdgesLoop, then the count cases
        rw [if_pos hun] at h
        try rw [bind_eq_match_gerr] at h
        split at h
        · cases h
        · rename_i a1 hLoop
          obtain ⟨s1, fe, be, ie, svs⟩ := a1
          simp only [] at h
          have hfLoop := Polygon.splitEdgesLoop_frame _ _ _ _ _ _ _ _ _ _ hLoop
          try rw [bind_eq_match_gerr] at h
          split at h
          · -- the non-trivial split branch
            try rw [bind_eq_match_gerr] at h
            split at h
            · cases h
            · rename_i a2 hInit
              obtain ⟨s2, se⟩ := a2
              simp only [] at h
              have hfInit := Edge.init_frame _ _ _ _ _ hInit
              try rw [bind_eq_match_gerr] at h
              split at h
              · cases h
              · try rw [bind_eq_match_gerr] at h
                split at h
                · cases h
                · try rw [bind_eq_match_gerr] at h
                  split at h
                  · cases h
                  · try rw [bind_eq_match_gerr] at h
                    split at h
                    · cases h
                    · try rw [bind_eq_match_gerr] at h
                      split at h
                      · cases h
                      · rename_i a3 hPf
                        obtain ⟨s3, fp⟩ := a3
                        simp only [] at h
                        try rw [bind_eq_match_gerr] at h
                        split at h
                        · cases h
                        · rename_i a4 hPb
                          obtain ⟨s4, bp⟩ := a4
                          simp only [] at h
                          cases h
                          have e3 := congrArg State.polys (Polygon.init_ok _ _ _ _ hPf).1
                          have e4 := congrArg State.polys (Polygon.init_ok _ _ _ _ hPb).1
                          exact e4.trans (e3.trans (hfInit.2.trans hfLoop.2))
          · -- all-on-one-side and touching cases: state unchanged from s1
            repeat' split at h
            all_goals try cases h
            all_goals exact hfLoop.2
      · -- already-split polygon
        rw [if_neg hun] at h
        try rw [bind_eq_match_gerr] at h
        split at h
        · cases h
        · try rw [bind_eq_match_gerr] at h
          split at h
          · -- splitter edge lies in the plane: no state change
            try simp only [bind_eq_match_gerr] at h
            repeat' split at h
            all_goals try cases h
            all_goals rfl
          · -- recursive case
            try rw [bind_eq_match_gerr] at h
            split at h
            · cases h
            · try rw [bind_eq_match_gerr] at h
              split at h
              · cases h
              · rename_i a1 hs1
                obtain ⟨s1, rf⟩ := a1
                simp only [] at h
                have hf1 := ih _ _ _ _ _ hs1
                try rw [bind_eq_match_gerr] at h
                split at h
                · cases h
                · try rw [bind_eq_match_gerr] at h
                  split at h
                  · cases h
                  · rename_i a2 hs2
                    obtain ⟨s2, rb⟩ := a2
                    simp only [] at h
                    have hf2 := ih _ _ _ _ _ hs2
                    try rw [bind_eq_match_gerr] at h
                    split at h
                    · -- both fronts: planeEdge
                      try rw [bind_eq_match_gerr] at h
                      split at h
                      · cases h
                      · rename_i a3 hPE
                        obtain ⟨s3, pe⟩ := a3
                        simp only [] at h
                        cases h
                        exact (planeEdge_frame _ _ _ _ _ hPE).2.trans (hf2.trans hf1)
                    · try rw [bind_eq_match_gerr] at h
                      split at h
                      · -- both backs: planeEdge
                        try rw [bind_eq_match_gerr] at h
                        split at h
                        · cases h
                        · rename_i a3 hPE
                          obtain ⟨s3, pe⟩ := a3
                          simp only [] at h
                          cases h
                          exact (planeEdge_frame _ _ _ _ _ hPE).2.trans (hf2.trans hf1)
                      · try rw [bind_eq_match_gerr] at h
                        split at h
                        · -- front one-sided, back split: makeSplitPolygon
                          try rw [bind_eq_match_gerr] at h
                          split at h
                          · cases h
                          · try rw [bind_eq_match_gerr] at h
                            split at h
                            · cases h
                            · try rw [bind_eq_match_gerr] at h
                              split at h
                              · cases h
                              · rename_i a4 hMSP
                                obtain ⟨s3, np⟩ := a4
                                simp only [] at h
                                cases h
                                exact (makeSplitPolygon_polys _ _ _ _ _ _ _ hMSP).trans
                                  (hf2.trans hf1)
                        · try rw [bind_eq_match_gerr] at h
                          split at h
                          · try rw [bind_eq_match_gerr] at h
                            split at h
                            · cases h
                            · try rw [bind_eq_match_gerr] at h
                              split at h
                              · cases h
                              · try rw [bind_eq_match_gerr] at h
                                split at h
                                · cases h
                                · rename_i a4 hMSP
                                  obtain ⟨s3, np⟩ := a4
                                  simp only [] at h
                                  cases h
                                  exact (makeSplitPolygon_polys _ _ _ _ _ _ _ hMSP).trans
                                    (hf2.trans hf1)
                          · try rw [bind_eq_match_gerr] at h
                            split at h
                            · try rw [bind_eq_match_gerr] at h
                              split at h
                              · cases h
                              · try rw [bind_eq_match_gerr] at h
                                split at h
                                · cases h
                                · try rw [bind_eq_match_gerr] at h
                                  split at h
                                  · cases h
                                  · rename_i a4 hMSP
                                    obtain ⟨s3, np⟩ := a4
                                    simp only [] at h
                                    cases h
                                    exact (makeSplitPolygon_polys _ _ _ _ _ _ _ hMSP).trans
                                      (hf2.trans hf1)
                            · try rw [bind_eq_match_gerr] at h
                              split at h
                              · try rw [bind_eq_match_gerr] at h
                                split at h
                                · cases h
                                · try rw [bind_eq_match_gerr] at h
                                  split at h
                                  · cases h
                                  · try rw [bind_eq_match_gerr] at h
                                    split at h
                                    · cases h
                                    · rename_i a4 hMSP
                                      obtain ⟨s3, np⟩ := a4
                                      simp only [] at h
                                      cases h
                                      exact (makeSplitPolygon_polys _ _ _ _ _ _ _ hMSP).trans
                                        (hf2.trans hf1)
                              · try rw [bind_eq_match_gerr] at h
                                split at h
                                · -- both split: two makeSplitPolygons and a commonParent
                                  try rw [bind_eq_match_gerr] at h
                                  split at h
                                  · cases h
                                  · try rw [bind_eq_match_gerr] at h
                                    split at h
                                    · cases h
                                    · try rw [bind_eq_match_gerr] at h
                                      split at h
                                      · cases h
                                      · try rw [bind_eq_match_gerr] at h
                                        split at h
                                        · cases h
                                        · try rw [bind_eq_match_gerr] at h
                                          split at h
                                          · cases h
                                          · try rw [bind_eq_match_gerr] at h
                                            split at h
                                            · cases h
                                            · rename_i a4 hM1
                                              obtain ⟨s3, np1⟩ := a4
                                              simp only [] at h
                                              have hfM1 := makeSplitPolygon_polys _ _ _ _ _ _ _ hM1
                                              try rw [bind_eq_match_gerr] at h
                                              split at h
                                              · cases h
                                              · try rw [bind_eq_match_gerr] at h
                                                split at h
                                                · cases h
                                                · rename_i a5 hM2
                                                  obtain ⟨s4, np2⟩ := a5
                                                  simp only [] at h
                                                  have hfM2 := makeSplitPolygon_polys _ _ _ _ _ _ _ hM2
                                                  try rw [bind_eq_match_gerr] at h
                                                  split at h
                                                  · cases h
                                                  · try rw [bind_eq_match_gerr] at h
                                                    split at h
                                                    · cases h
                                                    · try rw [bind_eq_match_gerr] at h
                                                      split at h
                                                      · cases h
                                                      · rename_i a6 hCP
                                                        obtain ⟨s5, cp⟩ := a6
                                                        simp only [] at h
                                                        cases h
                                                        exact (Edge.commonParent_frame _ _ _ _ _ hCP).2.trans
                                                          (hfM2.trans (hfM1.trans (hf2.trans hf1)))
                                · -- unforeseen relationship: no state change
                                  cases h
                                  exact hf2.trans hf1

set_option maxHeartbeats 4000000 in
/-- `Face.split` does not touch the polyhedron arena. -/
theorem Face.split_keeps_polys (fuel : Nat) (s : State) (selfF : Nat) (pl : Plane)
    (s' : State) (r : Option Nat × Option Nat × Option Nat)
    (h : Face.split fuel s selfF pl = .ok (s', r)) : s'.polys = s.polys := by
  rw [Face.split.eq_def] at h
  simp only [] at h
  rw [bind_eq_match_gerr] at h
  split at h
  · cases h
  · rename_i a1 hPS
    obtain ⟨s1, pr⟩ := a1
    simp only [] at h
    have hf1 := Polygon.split_polys _ _ _ _ _ _ hPS
    repeat' split at h
    all_goals try cases h
    all_goals exact hf1

set_option maxHeartbeats 4000000 in
/-- The face-splitting loop of `Polyhedron.split` does not touch the
polyhedron arena. -/
theorem Polyhedron.splitFacesLoop_polys :
    ∀ (faces : List Nat) (fuel : Nat) (s : State) (pl : Plane)
      (ff bf : List Nat) (sed : EdgeDictionary) (s' : State)
      (r : List Nat × List Nat × EdgeDictionary),
      Polyhedron.splitFacesLoop fuel s faces pl ff bf sed = .ok (s', r) →
      s'.polys = s.polys := by
  intro faces
  induction faces with
  | nil =>
    intro fuel s pl ff bf sed s' r h
    rw [Polyhedron.splitFacesLoop] at h
    cases h
    rfl
  | cons f rest ihr =>
    intro fuel s pl ff bf sed s' r h
    rw [Polyhedron.splitFacesLoop] at h
    rw [bind_eq_match_gerr] at h
    split at h
    · cases h
    · rename_i a1 hFS
      obtain ⟨s1, r1⟩ := a1
      simp only [] at h
      have h1 := Face.split_keeps_polys _ _ _ _ _ _ hFS
      have h2 := ihr _ _ _ _ _ _ _ _ h
      exact h2.trans h1

set_option maxHeartbeats 4000000 in
/-- The splitter-edge stitching loop of `Polyhedron.split` does not touch
the polygon or polyhedron arenas. -/
theorem Polyhedron.stitchLoop_frame :
    ∀ (fuel : Nat) (s : State) (sed : EdgeDictionary) (pe : List Nat)
      (ce : Nat) (prev : Option Nat) (cv : Nat) (fe : Option Nat)
      (s' : State) (l' : List Nat),
      Polyhedron.stitchLoop fuel s sed pe ce prev cv fe = .ok (s', l') →
      s'.polygons = s.polygons ∧ s'.polys = s.polys := by
  intro fuel
  induction fuel with
  | zero => intro s sed pe ce prev cv fe s' l' h; cases h
  | succ f ih =>
    intro s sed pe ce prev cv fe s' l' h
    rw [Polyhedron.stitchLoop.eq_def] at h
    try simp only [] at h
    split at h
    · cases h; exact ⟨rfl, rfl⟩
    · rw [bind_eq_match_gerr] at h
      try simp only [] at h
      split at h
      · cases h
      · rename_i a1 hHI
        obtain ⟨s1, pe1⟩ := a1
        try simp only [] at h
        have h1 := Edge.hoistInto_frame _ _ _ _ _ _ hHI
        split at h
        all_goals
          (have h2 := ih _ _ _ _ _ _ _ _ _ h
           exact ⟨h2.1.trans h1.1, h2.2.trans h1.2⟩)


/-- `getD` after `push`, below the old size. -/
theorem getD_push_lt {α : Type} (a : Array α) (x d : α) (i : Nat)
    (h : i < a.size) : (a.push x).getD i d = a.getD i d := by
  unfold Array.getD
  have h2 : i < (a.push x).size := by
    rw [Array.size_push]; omega
  rw [dif_pos h2, dif_pos h]
  exact Array.get_push_lt a x i h

/-- `getD` after `push`, at the old size. -/
theorem getD_push_eq {α : Type} (a : Array α) (x d : α) :
    (a.push x).getD a.size d = x := by
  unfold Array.getD
  have h2 : a.size < (a.push x).size := by
    rw [Array.size_push]; omega
  rw [dif_pos h2]
  exact Array.get_push_eq a x

/-- `getD` out of range. -/
theorem getD_ge {α : Type} (a : Array α) (d : α) (i : Nat) (h : a.size ≤ i) :
    a.getD i d = d := by
  unfold Array.getD
  rw [dif_neg (by omega)]

/-- `getD` after `setD` at a different index. -/
theorem getD_setD_ne {α : Type} (a : Array α) (i j : Nat) (x d : α)
    (h : i ≠ j) : (a.setD i x).getD j d = a.getD j d := by
  unfold Array.setD Array.getD
  by_cases hi : i < a.size
  · rw [dif_pos hi]
    by_cases hj : j < a.size
    · have hj2 : j < (a.set ⟨i, hi⟩ x).size := by rw [Array.size_set]; exact hj
      rw [dif_pos hj2, dif_pos hj]
      exact Array.get_set_ne a ⟨i, hi⟩ x hj h
    · have hj2 : ¬ j < (a.set ⟨i, hi⟩ x).size := by rw [Array.size_set]; exact hj
      rw [dif_neg hj2, dif_neg hj]
  · rw [dif_neg hi]

/-- `getD` after `setD` at the same in-range index. -/
theorem getD_setD_self {α : Type} (a : Array α) (i : Nat) (x d : α)
    (h : i < a.size) : (a.setD i x).getD i d = x := by
  unfold Array.setD Array.getD
  rw [dif_pos h]
  have h2 : i < (a.set ⟨i, h⟩ x).size := by rw [Array.size_set]; exact h
  rw [dif_pos h2]
  exact Array.get_set_eq a ⟨i, h⟩ x

/-- `setD` preserves the size. -/
theorem size_setD {α : Type} (a : Array α) (i : Nat) (x : α) :
    (a.setD i x).size = a.size := by
  unfold Array.setD
  by_cases hi : i < a.size
  · rw [dif_pos hi]; exact Array.size_set a ⟨i, hi⟩ x
  · rw [dif_neg hi]

/-- The shape invariant only depends on the polyhedron arena. -/
theorem polyShapeWF_of_polys_eq (s s' : State) (h : s'.polys = s.polys)
    (hwf : polyShapeWF s) : polyShapeWF s' := by
  unfold polyShapeWF childOk State.poly at hwf ⊢
  rw [h]
  exact hwf

/-- `childOk` transfers to any extension of the arena that preserves the
stored records. -/
theorem childOk_mono (s s' : State) (c : Option Nat) (col : ℕ)
    (hsz : s.polys.size ≤ s'.polys.size)
    (heq : ∀ j, j < s.polys.size → s'.poly j = s.poly j)
    (h : childOk s c col = true) : childOk s' c col = true := by
  cases c with
  | none => rfl
  | some f =>
    simp only [childOk, Bool.and_eq_true, decide_eq_true_eq] at h ⊢
    obtain ⟨h1, h2⟩ := h
    exact ⟨lt_of_lt_of_le h1 hsz, by rw [heq f h1]; exact h2⟩

/-- The shape invariant survives extending the arena with new leaves. -/
theorem polyShapeWF_extend (s s' : State)
    (hsz : s.polys.size ≤ s'.polys.size)
    (heq : ∀ j, j < s.polys.size → s'.poly j = s.poly j)
    (hnew : ∀ j, s.polys.size ≤ j → j < s'.polys.size →
      (s'.poly j).front = none ∧ (s'.poly j).back = none)
    (hwf : polyShapeWF s) : polyShapeWF s' := by
  intro i hi
  by_cases hlt : i < s.polys.size
  · obtain ⟨w1, w2, w3⟩ := hwf i hlt
    rw [heq i hlt]
    exact ⟨w1, childOk_mono s s' _ _ hsz heq w2, childOk_mono s s' _ _ hsz heq w3⟩
  · obtain ⟨n1, n2⟩ := hnew i (by omega) hi
    rw [n1, n2]
    exact ⟨Iff.rfl, rfl, rfl⟩

/-- The shape invariant survives overwriting a node with a record of the
same children and color. -/
theorem polyShapeWF_update_same_shape (s : State) (i : Nat) (q : PolyhedronRec)
    (hf : q.front = (s.poly i).front) (hb : q.back = (s.poly i).back)
    (hc : q.color = (s.poly i).color) (hwf : polyShapeWF s) :
    polyShapeWF (s.setPoly i q) := by
  intro j hj
  have hsz : (s.setPoly i q).polys.size = s.polys.size := size_setD _ _ _
  rw [hsz] at hj
  have hread : ∀ k, ((s.setPoly i q).poly k).front = (s.poly k).front ∧
      ((s.setPoly i q).poly k).back = (s.poly k).back ∧
      ((s.setPoly i q).poly k).color = (s.poly k).color := by
    intro k
    by_cases hk : k = i
    · subst hk
      by_cases hin : k < s.polys.size
      · have : (s.setPoly k q).poly k = q := getD_setD_self _ _ _ _ hin
        rw [this, hf, hb, hc]
        exact ⟨rfl, rfl, rfl⟩
      · have : (s.setPoly k q).poly k = s.poly k := by
          unfold State.poly State.setPoly
          simp only []
          unfold Array.setD
          rw [dif_neg hin]
        rw [this]
        exact ⟨rfl, rfl, rfl⟩
    · have : (s.setPoly i q).poly k = s.poly k :=
        getD_setD_ne _ _ _ _ _ (fun he => hk he.symm)
      rw [this]
      exact ⟨rfl, rfl, rfl⟩
  obtain ⟨w1, w2, w3⟩ := hwf j hj
  obtain ⟨r1, r2, r3⟩ := hread j
  rw [r1, r2, r3]
  refine ⟨w1, ?_, ?_⟩
  · cases hfr : (s.poly j).front with
    | none => rfl
    | some f =>
      rw [hfr] at w2
      simp only [childOk, Bool.and_eq_true, decide_eq_true_eq] at w2 ⊢
      obtain ⟨c1, c2⟩ := w2
      rw [hsz]
      exact ⟨c1, ((hread f).2.2).trans c2⟩
  · cases hbk : (s.poly j).back with
    | none => rfl
    | some b =>
      rw [hbk] at w3
      simp only [childOk, Bool.and_eq_true, decide_eq_true_eq] at w3 ⊢
      obtain ⟨c1, c2⟩ := w3
      rw [hsz]
      exact ⟨c1, ((hread b).2.2).trans c2⟩

/-- The shape invariant survives `setTo` (copying a node of equal color
over another, as `simplify` does). -/
theorem polyShapeWF_setTo (s : State) (i other : Nat)
    (hcol : (s.poly other).color = (s.poly i).color)
    (hwf : polyShapeWF s) : polyShapeWF (Polyhedron.setTo s i other) := by
  unfold Polyhedron.setTo
  intro j hj
  have hsz : (s.setPoly i (s.poly other)).polys.size = s.polys.size := size_setD _ _ _
  rw [hsz] at hj
  have hreadne : ∀ k, k ≠ i → (s.setPoly i (s.poly other)).poly k = s.poly k :=
    fun k hk => getD_setD_ne _ _ _ _ _ (fun he => hk he.symm)
  by_cases hji : j = i
  · subst hji
    have hri : (s.setPoly j (s.poly other)).poly j = s.poly other :=
      getD_setD_self _ _ _ _ hj
    rw [hri]
    by_cases ho : other < s.polys.size
    · obtain ⟨w1, w2, w3⟩ := hwf other ho
      refine ⟨w1, ?_, ?_⟩
      · cases hfr : (s.poly other).front with
        | none => rfl
        | some f =>
          rw [hfr] at w2
          simp only [childOk, Bool.and_eq_true, decide_eq_true_eq] at w2 ⊢
          obtain ⟨c1, c2⟩ := w2
          rw [hsz]
          refine ⟨c1, ?_⟩
          by_cases hfi : f = j
          · rw [hfi, hri]
          · rw [hreadne f hfi]
            exact c2
      · cases hbk : (s.poly other).back with
        | none => rfl
        | some b =>
          rw [hbk] at w3
          simp only [childOk, Bool.and_eq_true, decide_eq_true_eq] at w3 ⊢
          obtain ⟨c1, c2⟩ := w3
          rw [hsz]
          refine ⟨c1, ?_⟩
          by_cases hbi : b = j
          · rw [hbi, hri]
          · rw [hreadne b hbi]
            exact c2
    · have hdef : s.poly other = ⟨[], 0, none, none⟩ := by
        unfold State.poly
        exact getD_ge _ _ _ (by omega)
      rw [hdef]
      exact ⟨Iff.rfl, rfl, rfl⟩
  · rw [hreadne j hji]
    obtain ⟨w1, w2, w3⟩ := hwf j hj
    refine ⟨w1, ?_, ?_⟩
    · cases hfr : (s.poly j).front with
      | none => rfl
      | some f =>
        rw [hfr] at w2
        simp only [childOk, Bool.and_eq_true, decide_eq_true_eq] at w2 ⊢
        obtain ⟨c1, c2⟩ := w2
        rw [hsz]
        refine ⟨c1, ?_⟩
        by_cases hfi : f = i
        · have hri : (s.setPoly i (s.poly other)).poly i = s.poly other :=
            getD_setD_self _ _ _ _ (hfi ▸ c1)
          rw [hfi, hri]
          rw [hfi] at c2
          exact hcol.trans c2
        · rw [hreadne f hfi]
          exact c2
    · cases hbk : (s.poly j).back with
      | none => rfl
      | some b =>
        rw [hbk] at w3
        simp only [childOk, Bool.and_eq_true, decide_eq_true_eq] at w3 ⊢
        obtain ⟨c1, c2⟩ := w3
        rw [hsz]
        refine ⟨c1, ?_⟩
        by_cases hbi : b = i
        · have hri : (s.setPoly i (s.poly other)).poly i = s.poly other :=
            getD_setD_self _ _ _ _ (hbi ▸ c1)
          rw [hbi, hri]
          rw [hbi] at c2
          exact hcol.trans c2
        · rw [hreadne b hbi]
          exact c2

/-- `makeEmpty` (faces cleared, children and color kept) preserves the
shape invariant. -/
theorem Polyhedron.makeEmpty_wf (s : State) (p : Nat) (hwf : polyShapeWF s) :
    polyShapeWF (Polyhedron.makeEmpty s p) :=
  polyShapeWF_update_same_shape s p _ rfl rfl rfl hwf

/-- `makeEmptyAll` preserves the shape invariant. -/
theorem Polyhedron.makeEmptyAll_wf :
    ∀ (l : List Nat) (s : State), polyShapeWF s →
      polyShapeWF (Polyhedron.makeEmptyAll s l) := by
  intro l
  induction l with
  | nil => intro s h; exact h
  | cons p rest ih => intro s h; exact ih _ (Polyhedron.makeEmpty_wf s p h)

/-- `makeEmptyAll` keeps the polyhedron arena's size. -/
theorem Polyhedron.makeEmptyAll_size :
    ∀ (l : List Nat) (s : State),
      (Polyhedron.makeEmptyAll s l).polys.size = s.polys.size := by
  intro l
  induction l with
  | nil => intro s; rfl
  | cons p rest ih =>
    intro s
    rw [Polyhedron.makeEmptyAll]
    exact (ih _).trans (size_setD _ _ _)

set_option maxHeartbeats 2000000 in
/-- The inner loop of `Polyhedron.__init__` does not touch the polyhedron
arena. -/
theorem Polyhedron.initFaceLoop_polys :
    ∀ (idxs : List Nat) (s : State) (dict : EdgeDictionary) (pv : Nat)
      (vmap pe : List Nat) (s' : State) (r : EdgeDictionary × List Nat),
      Polyhedron.initFaceLoop s dict pv idxs vmap pe = .ok (s', r) →
      s'.polys = s.polys := by
  intro idxs
  induction idxs with
  | nil =>
    intro s dict pv vmap pe s' r h
    rw [Polyhedron.initFaceLoop] at h
    cases h
    rfl
  | cons i rest ih =>
    intro s dict pv vmap pe s' r h
    rw [Polyhedron.initFaceLoop] at h
    split at h
    · exact ih _ _ _ _ _ _ _ h
    · rw [bind_eq_match_gerr] at h
      split at h
      · cases h
      · rename_i a1 hEI
        obtain ⟨s1, ce⟩ := a1
        simp only [] at h
        exact (ih _ _ _ _ _ _ _ h).trans (Edge.init_frame _ _ _ _ _ hEI).2

set_option maxHeartbeats 2000000 in
/-- The outer loop of `Polyhedron.__init__` does not touch the polyhedron
arena. -/
theorem Polyhedron.initFacesLoop_polys :
    ∀ (faces : List (List Nat)) (s : State) (dict : EdgeDictionary)
      (vmap : List Nat) (col : ℕ) (acc : List Nat) (s' : State)
      (r : EdgeDictionary × List Nat),
      Polyhedron.initFacesLoop s dict faces vmap col acc = .ok (s', r) →
      s'.polys = s.polys := by
  intro faces
  induction faces with
  | nil =>
    intro s dict vmap col acc s' r h
    rw [Polyhedron.initFacesLoop] at h
    cases h
    rfl
  | cons face rest ih =>
    intro s dict vmap col acc s' r h
    rw [Polyhedron.initFacesLoop.eq_def] at h
    simp only [] at h
    split at h
    · cases h
    · rw [bind_eq_match_gerr] at h
      split at h
      · cases h
      · rename_i a1 hIFL
        obtain ⟨s1, dict1, pes⟩ := a1
        simp only [] at h
        rw [bind_eq_match_gerr] at h
        split at h
        · cases h
        · rename_i a2 hPI
          obtain ⟨s2, fsh⟩ := a2
          simp only [] at h
          have h3 := ih _ _ _ _ _ _ _ h
          have h4 := Polyhedron.initFaceLoop_polys _ _ _ _ _ _ _ _ hIFL
          have h5 := congrArg State.polys (Polygon.init_ok _ _ _ _ hPI).1
          exact h3.trans (h5.trans h4)

set_option maxHeartbeats 2000000 in
/-- Inversion of a successful `Polyhedron.init`: the polyhedron arena
gains exactly one new unsplit node of the given color, whose index is
returned. -/
theorem Polyhedron.init_spec (s : State) (verts : List Vertex)
    (faces : List (List Nat)) (col : ℕ) (s' : State) (pid : Nat)
    (h : Polyhedron.init s verts faces col = .ok (s', pid)) :
    ∃ fids, s'.polys = s.polys.push ⟨fids, col, none, none⟩ ∧
      pid = s.polys.size := by
  unfold Polyhedron.init at h
  simp only [] at h
  rw [bind_eq_match_gerr] at h
  split at h
  · cases h
  · rename_i a1 hFL
    obtain ⟨s1, dict1, fids⟩ := a1
    simp only [] at h
    cases h
    have h1 := Polyhedron.initFacesLoop_polys _ _ _ _ _ _ _ _ hFL
    refine ⟨fids, ?_, ?_⟩
    · show s1.polys.push _ = _
      rw [h1]
    · show s1.polys.size = _
      rw [h1]

/-- `Polyhedron.init` preserves the shape invariant and returns a fresh
in-range leaf. -/
theorem Polyhedron.init_wf (s : State) (verts : List Vertex)
    (faces : List (List Nat)) (col : ℕ) (s' : State) (pid : Nat)
    (h : Polyhedron.init s verts faces col = .ok (s', pid))
    (hwf : polyShapeWF s) :
    polyShapeWF s' ∧ s.polys.size ≤ s'.polys.size ∧ pid < s'.polys.size ∧
    (s'.poly pid).front = none ∧ (s'.poly pid).back = none ∧
    (s'.poly pid).color = col ∧
    (∀ j, j < s.polys.size → s'.poly j = s.poly j) := by
  obtain ⟨fids, hp, hpid⟩ := Polyhedron.init_spec _ _ _ _ _ _ h
  have hsz : s'.polys.size = s.polys.size + 1 := by rw [hp, Array.size_push]
  have hold : ∀ j, j < s.polys.size → s'.poly j = s.poly j := by
    intro j hj
    unfold State.poly
    rw [hp]
    exact getD_push_lt _ _ _ _ hj
  have hnewrec : s'.poly pid = ⟨fids, col, none, none⟩ := by
    unfold State.poly
    rw [hp, hpid]
    exact getD_push_eq _ _ _
  refine ⟨?_, by omega, by omega, ?_, ?_, ?_, hold⟩
  · apply polyShapeWF_extend s s' (by omega) hold ?_ hwf
    intro j h1 h2
    have hj : j = pid := by omega
    rw [hj, hnewrec]
    exact ⟨rfl, rfl⟩
  · rw [hnewrec]
  · rw [hnewrec]
  · rw [hnewrec]

/-- `setPoly` keeps the arena size. -/
theorem setPoly_size (s : State) (i : Nat) (q : PolyhedronRec) :
    (s.setPoly i q).polys.size = s.polys.size := size_setD _ _ _

/-- `setPoly` leaves other nodes unchanged. -/
theorem setPoly_poly_ne (s : State) (i j : Nat) (q : PolyhedronRec)
    (h : j ≠ i) : (s.setPoly i q).poly j = s.poly j :=
  getD_setD_ne _ _ _ _ _ (fun he => h he.symm)

/-- Reading back an in-range `setPoly`. -/
theorem setPoly_poly_self (s : State) (i : Nat) (q : PolyhedronRec)
    (h : i < s.polys.size) : (s.setPoly i q).poly i = q :=
  getD_setD_self _ _ _ _ h

/-- The shape invariant survives turning a node into an internal split
node whose two children are in range and share its color (the final
step of a non-trivial `Polyhedron.split`). -/
theorem polyShapeWF_set_children (s : State) (i fId bId : Nat)
    (hi : i < s.polys.size) (hfI : fId < s.polys.size)
    (hbI : bId < s.polys.size)
    (hcf : (s.poly fId).color = (s.poly i).color)
    (hcb : (s.poly bId).color = (s.poly i).color)
    (hwf : polyShapeWF s) :
    polyShapeWF (s.setPoly i
      { s.poly i with front := some fId, back := some bId }) := by
  intro j hj
  have hsz : (s.setPoly i
      { s.poly i with front := some fId, back := some bId }).polys.size =
      s.polys.size := setPoly_size _ _ _
  rw [hsz] at hj
  have hcolread : ∀ k, ((s.setPoly i
      { s.poly i with front := some fId, back := some bId }).poly k).color =
      (s.poly k).color := by
    intro k
    by_cases hk : k = i
    · subst hk
      rw [setPoly_poly_self _ _ _ hi]
    · rw [setPoly_poly_ne _ _ _ _ hk]
  by_cases hji : j = i
  · subst hji
    rw [setPoly_poly_self _ _ _ hj]
    refine ⟨by simp, ?_, ?_⟩
    · simp only [childOk, Bool.and_eq_true, decide_eq_true_eq]
      rw [hsz]
      exact ⟨hfI, (hcolread fId).trans hcf⟩
    · simp only [childOk, Bool.and_eq_true, decide_eq_true_eq]
      rw [hsz]
      exact ⟨hbI, (hcolread bId).trans hcb⟩
  · rw [setPoly_poly_ne _ _ _ _ hji]
    obtain ⟨w1, w2, w3⟩ := hwf j hj
    refine ⟨w1, ?_, ?_⟩
    · cases hfr : (s.poly j).front with
      | none => rfl
      | some f =>
        rw [hfr] at w2
        simp only [childOk, Bool.and_eq_true, decide_eq_true_eq] at w2 ⊢
        obtain ⟨c1, c2⟩ := w2
        rw [hsz]
        exact ⟨c1, (hcolread f).trans c2⟩
    · cases hbk : (s.poly j).back with
      | none => rfl
      | some b =>
        rw [hbk] at w3
        simp only [childOk, Bool.and_eq_true, decide_eq_true_eq] at w3 ⊢
        obtain ⟨c1, c2⟩ := w3
        rw [hsz]
        exact ⟨c1, (hcolread b).trans c2⟩

set_option maxHeartbeats 8000000 in
/-- `Polyhedron.split` preserves the shape invariant; it never shrinks the
arena, and every returned front/back id is in range. -/
theorem Polyhedron.split_wf :
    ∀ (fuel : Nat) (s : State) (selfP : Nat) (pl : Plane) (s' : State)
      (r : List Nat × List Nat × List Nat),
      Polyhedron.split fuel s selfP pl = .ok (s', r) →
      selfP < s.polys.size → polyShapeWF s →
      polyShapeWF s' ∧ s.polys.size ≤ s'.polys.size ∧
      (∀ x, x ∈ r.1 → x < s'.polys.size) ∧
      (∀ x, x ∈ r.2.1 → x < s'.polys.size) := by
  intro fuel
  induction fuel with
  | zero => intro s selfP pl s' r h hs hwf; cases h
  | succ fuel ih =>
    intro s selfP pl s' r h hs hwf
    rw [Polyhedron.split.eq_def] at h
    try simp only [] at h
    by_cases hleaf : (s.poly selfP).front = none ∧ (s.poly selfP).back = none
    · rw [if_pos hleaf] at h
      rw [bind_eq_match_gerr] at h
      split at h
      · cases h
      · rename_i a1 hFL
        obtain ⟨s1, ff, bf, sed⟩ := a1
        try simp only [] at h
        have hP1 : s1.polys = s.polys :=
          Polyhedron.splitFacesLoop_polys _ _ _ _ _ _ _ _ _ hFL
        by_cases hc1 : ff.length > 0 ∧ bf.length ≤ 1
        · rw [if_pos hc1] at h
          cases h
          have hsz1 := congrArg Array.size hP1
          refine ⟨polyShapeWF_of_polys_eq s _ hP1 hwf, ?_, ?_, ?_⟩
          · omega
          · intro x hx
            simp only [List.mem_singleton] at hx
            omega
          · intro x hx
            cases hx
        · rw [if_neg hc1] at h
          by_cases hc2 : ff.length ≤ 1 ∧ bf.length > 0
          · rw [if_pos hc2] at h
            cases h
            have hsz1 := congrArg Array.size hP1
            refine ⟨polyShapeWF_of_polys_eq s _ hP1 hwf, ?_, ?_, ?_⟩
            · omega
            · intro x hx
              cases hx
            · intro x hx
              simp only [List.mem_singleton] at hx
              omega
          · rw [if_neg hc2] at h
            rw [bind_eq_match_gerr] at h
            split at h
            · cases h
            · rename_i ce hCE
              try simp only [] at h
              rw [bind_eq_match_gerr] at h
              split at h
              · cases h
              · rename_i a2 hSL
                obtain ⟨s2, pes⟩ := a2
                try simp only [] at h
                rw [bind_eq_match_gerr] at h
                split at h
                · cases h
                · rename_i a3 hCEP
                  obtain ⟨s3, ces⟩ := a3
                  try simp only [] at h
                  rw [bind_eq_match_gerr] at h
                  split at h
                  · cases h
                  · rename_i a4 hPI
                    obtain ⟨s4, sp⟩ := a4
                    simp only [State.newFace] at h
                    try simp only [] at h
                    rw [bind_eq_match_gerr] at h
                    split at h
                    · cases h
                    · rename_i a5 hI1
                      obtain ⟨s7, frontId⟩ := a5
                      try simp only [] at h
                      rw [bind_eq_match_gerr] at h
                      split at h
                      · cases h
                      · rename_i a6 hI2
                        obtain ⟨s8, backId⟩ := a6
                        try simp only [] at h
                        cases h
                        have hP4 : s4.polys = s.polys := by
                          have h2 := (Polyhedron.stitchLoop_frame _ _ _ _ _ _ _ _ _ _ hSL).2
                          have h3 := (checkEndParents_frame _ _ _ _ _ hCEP).2
                          have h4 := congrArg State.polys (Polygon.init_ok _ _ _ _ hPI).1
                          exact h4.trans (h3.trans (h2.trans hP1))
                        have hsz4 : s4.polys.size = s.polys.size := congrArg Array.size hP4
                        have hi1 := Polyhedron.init_wf _ _ _ _ _ _ hI1
                          (polyShapeWF_of_polys_eq s _ hP4 hwf)
                        have h47 : s4.polys.size ≤ s7.polys.size := hi1.2.1
                        have hfid7 : frontId < s7.polys.size := hi1.2.2.1
                        have hcolF7 : (s7.poly frontId).color = (s.poly selfP).color :=
                          hi1.2.2.2.2.2.1
                        have hold1 : ∀ j, j < s4.polys.size → s7.poly j = s4.poly j :=
                          hi1.2.2.2.2.2.2
                        have hi2 := Polyhedron.init_wf _ _ _ _ _ _ hI2 hi1.1
                        have h78 : s7.polys.size ≤ s8.polys.size := hi2.2.1
                        have hbid8 : backId < s8.polys.size := hi2.2.2.1
                        have hcolB8 : (s8.poly backId).color = (s.poly selfP).color :=
                          hi2.2.2.2.2.2.1
                        have hold2 : ∀ j, j < s7.polys.size → s8.poly j = s7.poly j :=
                          hi2.2.2.2.2.2.2
                        have hps4 : s4.poly selfP = s.poly selfP := by
                          unfold State.poly
                          rw [hP4]
                        have hself8 : s8.poly selfP = s.poly selfP := by
                          rw [hold2 selfP (by omega), hold1 selfP (by omega), hps4]
                        have hcolF8 : (s8.poly frontId).color = (s8.poly selfP).color := by
                          rw [hold2 frontId hfid7, hself8, hcolF7]
                        have hcolB8' : (s8.poly backId).color = (s8.poly selfP).color := by
                          rw [hself8, hcolB8]
                        refine ⟨?_, ?_, ?_, ?_⟩
                        · exact polyShapeWF_update_same_shape _ backId _ rfl rfl rfl
                            (polyShapeWF_update_same_shape _ frontId _ rfl rfl rfl
                              (polyShapeWF_set_children s8 selfP frontId backId
                                (by omega) (by omega) hbid8 hcolF8 hcolB8' hi2.1))
                        · rw [setPoly_size, setPoly_size, setPoly_size]
                          omega
                        · intro x hx
                          simp only [List.mem_singleton] at hx
                          rw [hx, setPoly_size, setPoly_size, setPoly_size]
                          omega
                        · intro x hx
                          simp only [List.mem_singleton] at hx
                          rw [hx, setPoly_size, setPoly_size, setPoly_size]
                          omega
    · rw [if_neg hleaf] at h
      obtain ⟨w1, w2, w3⟩ := hwf selfP hs
      split at h
      · rename_i hfr
        rw [bind_ok_gerr] at h
        try simp only [] at h
        split at h
        · rename_i hbk
          exact absurd ⟨hfr, hbk⟩ hleaf
        · rename_i b hbk
          have hb' : b < s.polys.size := by
            rw [hbk] at w3
            simp only [childOk, Bool.and_eq_true, decide_eq_true_eq] at w3
            exact w3.1
          cases hspb : Polyhedron.split fuel s b pl with
          | error e =>
            rw [hspb] at h
            simp only [bind_error_gerr] at h
            cases h
          | ok a =>
            obtain ⟨s1, r1⟩ := a
            rw [hspb] at h
            simp only [bind_ok_gerr] at h
            try simp only [] at h
            try simp only [bind_ok_gerr] at h
            try simp only [] at h
            cases h
            have ihb := ih s b pl _ _ hspb hb' hwf
            refine ⟨ihb.1, ihb.2.1, ?_, ?_⟩
            · intro x hx
              simp only [List.nil_append] at hx
              exact ihb.2.2.1 x hx
            · intro x hx
              simp only [List.nil_append] at hx
              exact ihb.2.2.2 x hx
      · rename_i f hfr
        have hf' : f < s.polys.size := by
          rw [hfr] at w2
          simp only [childOk, Bool.and_eq_true, decide_eq_true_eq] at w2
          exact w2.1
        cases hspf : Polyhedron.split fuel s f pl with
        | error e =>
          rw [hspf] at h
          simp only [bind_error_gerr] at h
          cases h
        | ok a =>
          obtain ⟨s1, r1⟩ := a
          rw [hspf] at h
          simp only [bind_ok_gerr] at h
          try simp only [] at h
          try simp only [bind_ok_gerr] at h
          try simp only [] at h
          have ihf := ih s f pl s1 r1 hspf hf' hwf
          split at h
          · rename_i hbk
            try simp only [bind_ok_gerr] at h
            try simp only [] at h
            cases h
            exact ⟨ihf.1, ihf.2.1, fun x hx => ihf.2.2.1 x hx,
              fun x hx => ihf.2.2.2 x hx⟩
          · rename_i b hbk
            have hb' : b < s.polys.size := by
              rw [hbk] at w3
              simp only [childOk, Bool.and_eq_true, decide_eq_true_eq] at w3
              exact w3.1
            cases hspb : Polyhedron.split fuel s1 b pl with
            | error e =>
              rw [hspb] at h
              simp only [bind_error_gerr] at h
              cases h
            | ok a2 =>
              obtain ⟨s2, r2⟩ := a2
              rw [hspb] at h
              simp only [bind_ok_gerr] at h
              try simp only [] at h
              try simp only [bind_ok_gerr] at h
              try simp only [] at h
              cases h
              have ihb := ih s1 b pl _ _ hspb (lt_of_lt_of_le hb' ihf.2.1) ihf.1
              refine ⟨ihb.1, ihf.2.1.trans ihb.2.1, ?_, ?_⟩
              · intro x hx
                rcases List.mem_append.mp hx with hx1 | hx2
                · exact lt_of_lt_of_le (ihf.2.2.1 x hx1) ihb.2.1
                · exact ihb.2.2.1 x hx2
              · intro x hx
                rcases List.mem_append.mp hx with hx1 | hx2
                · exact lt_of_lt_of_le (ihf.2.2.2 x hx1) ihb.2.1
                · exact ihb.2.2.2 x hx2

/-- The collapse step at the end of `simplify` preserves the shape
invariant and the arena size. -/
theorem simplify_tail_wf (s : State) (selfP : Nat) (s' : State)
    (h : (if (s.poly selfP).front ≠ none ∧ (s.poly selfP).back ≠ none then
            if Polyhedron.isEmpty s ((s.poly selfP).back.getD 0) then
              Except.ok (Polyhedron.setTo s selfP ((s.poly selfP).front.getD 0))
            else if Polyhedron.isEmpty s ((s.poly selfP).front.getD 0) then
              Except.ok (Polyhedron.setTo s selfP ((s.poly selfP).back.getD 0))
            else Except.ok s
          else Except.ok s) = (Except.ok s' : Except GErr State))
    (hwf : polyShapeWF s) : polyShapeWF s' ∧ s'.polys.size = s.polys.size := by
  by_cases hc : (s.poly selfP).front ≠ none ∧ (s.poly selfP).back ≠ none
  · rw [if_pos hc] at h
    by_cases hsp : selfP < s.polys.size
    · obtain ⟨w1, w2, w3⟩ := hwf selfP hsp
      cases hfr : (s.poly selfP).front with
      | none => exact absurd hfr hc.1
      | some f =>
        cases hbk : (s.poly selfP).back with
        | none => exact absurd hbk hc.2
        | some b =>
          rw [hfr] at w2
          rw [hbk] at w3
          simp only [childOk, Bool.and_eq_true, decide_eq_true_eq] at w2 w3
          rw [hfr, hbk] at h
          simp only [Option.getD_some] at h
          split at h
          · cases h
            exact ⟨polyShapeWF_setTo s selfP f w2.2 hwf, setPoly_size _ _ _⟩
          · split at h
            · cases h
              exact ⟨polyShapeWF_setTo s selfP b w3.2 hwf, setPoly_size _ _ _⟩
            · cases h
              exact ⟨hwf, rfl⟩
    · have hdef : s.poly selfP = ⟨[], 0, none, none⟩ := by
        unfold State.poly
        exact getD_ge _ _ _ (by omega)
      exact absurd (by rw [hdef]) hc.1
  · rw [if_neg hc] at h
    cases h
    exact ⟨hwf, rfl⟩

set_option maxHeartbeats 2000000 in
/-- `simplify` preserves the shape invariant and the arena size. -/
theorem Polyhedron.simplify_wf :
    ∀ (fuel : Nat) (s : State) (selfP : Nat) (s' : State),
      Polyhedron.simplify fuel s selfP = .ok s' → polyShapeWF s →
      polyShapeWF s' ∧ s'.polys.size = s.polys.size := by
  intro fuel
  induction fuel with
  | zero => intro s selfP s' h hwf; cases h
  | succ fuel ih =>
    intro s selfP s' h hwf
    rw [Polyhedron.simplify.eq_def] at h
    try simp only [] at h
    split at h
    · try rw [bind_ok_gerr] at h
      try simp only [] at h
      split at h
      · try rw [bind_ok_gerr] at h
        try simp only [] at h
        exact simplify_tail_wf s selfP s' h hwf
      · rename_i b hbk
        rw [bind_eq_match_gerr] at h
        split at h
        · cases h
        · rename_i s1 hs1
          try simp only [] at h
          have ih1 := ih s b s1 hs1 hwf
          have ht := simplify_tail_wf s1 selfP s' h ih1.1
          exact ⟨ht.1, ht.2.trans ih1.2⟩
    · rename_i f hfr
      rw [bind_eq_match_gerr] at h
      split at h
      · cases h
      · rename_i s1 hs1
        try simp only [] at h
        have ih1 := ih s f s1 hs1 hwf
        split at h
        · try rw [bind_ok_gerr] at h
          try simp only [] at h
          have ht := simplify_tail_wf s1 selfP s' h ih1.1
          exact ⟨ht.1, ht.2.trans ih1.2⟩
        · rename_i b hbk
          rw [bind_eq_match_gerr] at h
          split at h
          · cases h
          · rename_i s2 hs2
            try simp only [] at h
            have ih2 := ih s1 b s2 hs2 ih1.1
            have ht := simplify_tail_wf s2 selfP s' h ih2.1
            exact ⟨ht.1, ht.2.trans (ih2.2.trans ih1.2)⟩

set_option maxHeartbeats 2000000 in
/-- One pass of `clipToPlanes` over the worklist preserves the shape
invariant and returns in-range back parts. -/
theorem Polyhedron.splitAllByPlane_wf :
    ∀ (l : List Nat) (fuel : Nat) (s : State) (pl : Plane) (acc : List Nat)
      (s' : State) (res : List Nat),
      Polyhedron.splitAllByPlane fuel s l pl acc = .ok (s', res) →
      (∀ x, x ∈ l → x < s.polys.size) →
      (∀ x, x ∈ acc → x < s.polys.size) → polyShapeWF s →
      polyShapeWF s' ∧ s.polys.size ≤ s'.polys.size ∧
      ∀ x, x ∈ res → x < s'.polys.size := by
  intro l
  induction l with
  | nil =>
    intro fuel s pl acc s' res h hl hacc hwf
    rw [Polyhedron.splitAllByPlane] at h
    cases h
    exact ⟨hwf, le_refl _, hacc⟩
  | cons p rest ihl =>
    intro fuel s pl acc s' res h hl hacc hwf
    rw [Polyhedron.splitAllByPlane] at h
    rw [bind_eq_match_gerr] at h
    split at h
    · cases h
    · rename_i a hsp
      obtain ⟨s1, r1⟩ := a
      try simp only [] at h
      have h1 := Polyhedron.split_wf fuel s p pl s1 r1 hsp
        (hl p (by simp)) hwf
      have h2 := ihl fuel s1 pl (acc ++ r1.2.1) s' res h
        (fun x hx => lt_of_lt_of_le (hl x (by simp [hx])) h1.2.1)
        (fun x hx => by
          rcases List.mem_append.mp hx with h3 | h3
          · exact lt_of_lt_of_le (hacc x h3) h1.2.1
          · exact h1.2.2.2 x h3)
        h1.1
      exact ⟨h2.1, h1.2.1.trans h2.2.1, h2.2.2⟩

set_option maxHeartbeats 2000000 in
/-- The plane-consuming loop of `clipToPlanes` preserves the shape
invariant and returns an in-range leftover worklist. -/
theorem Polyhedron.clipLoop_wf :
    ∀ (fuel : Nat) (s : State) (planes : List Plane) (toSplit : List Nat)
      (s' : State) (res : List Nat),
      Polyhedron.clipLoop fuel s planes toSplit = .ok (s', res) →
      (∀ x, x ∈ toSplit → x < s.polys.size) → polyShapeWF s →
      polyShapeWF s' ∧ s.polys.size ≤ s'.polys.size ∧
      ∀ x, x ∈ res → x < s'.polys.size := by
  intro fuel
  induction fuel with
  | zero => intro s planes toSplit s' res h hts hwf; cases h
  | succ fuel ih =>
    intro s planes toSplit s' res h hts hwf
    rw [Polyhedron.clipLoop.eq_def] at h
    try simp only [] at h
    by_cases hc : planes = [] ∨ toSplit = []
    · rw [if_pos hc] at h
      cases h
      exact ⟨hwf, le_refl _, hts⟩
    · rw [if_neg hc] at h
      split at h
      · cases h
        exact ⟨hwf, le_refl _, hts⟩
      · rename_i cp hlast
        rw [bind_eq_match_gerr] at h
        split at h
        · cases h
        · rename_i a hsab
          obtain ⟨s1, nts⟩ := a
          try simp only [] at h
          have h1 := Polyhedron.splitAllByPlane_wf _ _ _ _ _ _ _ hsab hts
            (fun x hx => absurd hx (List.not_mem_nil x)) hwf
          have h2 := ih _ _ _ _ _ h h1.2.2 h1.1
          exact ⟨h2.1, h1.2.1.trans h2.2.1, h2.2.2⟩

/-- `clipToPlanes` preserves the shape invariant. -/
theorem Polyhedron.clipToPlanes_wf (fuel : Nat) (s : State) (selfP : Nat)
    (planes : List Plane) (s' : State)
    (h : Polyhedron.clipToPlanes fuel s selfP planes = .ok s')
    (hs : selfP < s.polys.size) (hwf : polyShapeWF s) :
    polyShapeWF s' ∧ s.polys.size ≤ s'.polys.size := by
  unfold Polyhedron.clipToPlanes at h
  rw [bind_eq_match_gerr] at h
  split at h
  · cases h
  · rename_i a hcl
    obtain ⟨s1, leftover⟩ := a
    try simp only [] at h
    have h1 := Polyhedron.clipLoop_wf _ _ _ _ _ _ hcl
      (fun x hx => by
        simp only [List.mem_singleton] at hx
        omega) hwf
    have h2 := Polyhedron.makeEmptyAll_wf leftover s1 h1.1
    have h3 := Polyhedron.simplify_wf fuel _ selfP s' h h2
    have h4 := Polyhedron.makeEmptyAll_size leftover s1
    have h5 := h1.2.1
    exact ⟨h3.1, by omega⟩

/-- The per-leaf clipping step of `clipTo` preserves the shape invariant. -/
theorem Polyhedron.clipTo_tail_wf (fuel : Nat) (s : State) (selfP other : Nat)
    (s' : State)
    (h : (if (s.poly other).front = none ∧ (s.poly other).back = none then
            (facePlanes s (s.poly other).faces []) >>= fun planes =>
              Polyhedron.clipToPlanes fuel s selfP planes
          else Except.ok s) = (Except.ok s' : Except GErr State))
    (hs : selfP < s.polys.size) (hwf : polyShapeWF s) :
    polyShapeWF s' ∧ s.polys.size ≤ s'.polys.size := by
  by_cases hc : (s.poly other).front = none ∧ (s.poly other).back = none
  · rw [if_pos hc] at h
    rw [bind_eq_match_gerr] at h
    split at h
    · cases h
    · rename_i planes hfp
      try simp only [] at h
      exact Polyhedron.clipToPlanes_wf _ _ _ _ _ h hs hwf
  · rw [if_neg hc] at h
    cases h
    exact ⟨hwf, le_refl _⟩

set_option maxHeartbeats 2000000 in
/-- `clipTo` preserves the shape invariant. -/
theorem Polyhedron.clipTo_wf :
    ∀ (fuel : Nat) (s : State) (selfP other : Nat) (s' : State),
      Polyhedron.clipTo fuel s selfP other = .ok s' →
      selfP < s.polys.size → polyShapeWF s →
      polyShapeWF s' ∧ s.polys.size ≤ s'.polys.size := by
  intro fuel
  induction fuel with
  | zero => intro s selfP other s' h hs hwf; cases h
  | succ fuel ih =>
    intro s selfP other s' h hs hwf
    rw [Polyhedron.clipTo.eq_def] at h
    try simp only [] at h
    split at h
    · try rw [bind_ok_gerr] at h
      try simp only [] at h
      split at h
      · try rw [bind_ok_gerr] at h
        try simp only [] at h
        exact Polyhedron.clipTo_tail_wf fuel s selfP other s' h hs hwf
      · rename_i b hbk
        rw [bind_eq_match_gerr] at h
        split at h
        · cases h
        · rename_i s1 h1
          try simp only [] at h
          have ihb := ih s selfP b s1 h1 hs hwf
          have ht := Polyhedron.clipTo_tail_wf fuel s1 selfP other s' h
            (by omega) ihb.1
          exact ⟨ht.1, le_trans ihb.2 ht.2⟩
    · rename_i f hfr
      rw [bind_eq_match_gerr] at h
      split at h
      · cases h
      · rename_i s1 h1
        try simp only [] at h
        have ihf := ih s selfP f s1 h1 hs hwf
        split at h
        · try rw [bind_ok_gerr] at h
          try simp only [] at h
          have ht := Polyhedron.clipTo_tail_wf fuel s1 selfP other s' h
            (by omega) ihf.1
          exact ⟨ht.1, le_trans ihf.2 ht.2⟩
        · rename_i b hbk
          rw [bind_eq_match_gerr] at h
          split at h
          · cases h
          · rename_i s2 h2
            try simp only [] at h
            have ihb := ih s1 selfP b s2 h2 (by omega) ihf.1
            have ht := Polyhedron.clipTo_tail_wf fuel s2 selfP other s' h
              (by omega) ihb.1
            exact ⟨ht.1, by omega⟩


/-- C9 (amended): the shape half of the claimed invariant holds — every
polyhedron node is either a leaf (`front = back = none`) or an internal
node with both children present, in range, and of the same color — and
this invariant is preserved by construction (`Polyhedron.init`),
`Polyhedron.split`, `Polyhedron.simplify`, and `Polyhedron.clipTo`.  (The
claimed empty-face-list half is refuted by
`C9_internal_faces_counterexample`.) -/
theorem C9_shape_invariant :
    (∀ (s : State) (verts : List Vertex) (faces : List (List Nat)) (col : ℕ)
       (s' : State) (pid : Nat),
       Polyhedron.init s verts faces col = .ok (s', pid) → polyShapeWF s →
       polyShapeWF s') ∧
    (∀ (fuel : Nat) (s : State) (selfP : Nat) (pl : Plane) (s' : State)
       (r : List Nat × List Nat × List Nat),
       Polyhedron.split fuel s selfP pl = .ok (s', r) →
       selfP < s.polys.size → polyShapeWF s → polyShapeWF s') ∧
    (∀ (fuel : Nat) (s : State) (selfP : Nat) (s' : State),
       Polyhedron.simplify fuel s selfP = .ok s' → polyShapeWF s →
       polyShapeWF s') ∧
    (∀ (fuel : Nat) (s : State) (selfP other : Nat) (s' : State),
       Polyhedron.clipTo fuel s selfP other = .ok s' →
       selfP < s.polys.size → polyShapeWF s → polyShapeWF s') :=
  ⟨fun s v f c s' pid h hwf => (Polyhedron.init_wf s v f c s' pid h hwf).1,
   fun fuel s p pl s' r h hp hwf =>
     (Polyhedron.split_wf fuel s p pl s' r h hp hwf).1,
   fun fuel s p s' h hwf => (Polyhedron.simplify_wf fuel s p s' h hwf).1,
   fun fuel s p o s' h hp hwf => (Polyhedron.clipTo_wf fuel s p o s' h hp hwf).1⟩

/-- C3: for a leaf polyhedron whose face-splitting loop leaves faces only
in front (with at most one in back), `split` returns `([self], [], [])`,
and symmetrically `([], [self], [])` for the back side; in both cases the
node acquires no children. -/
theorem C3_trivial_split (fuel : Nat) (s : State) (selfP : Nat) (pl : Plane)
    (s1 : State) (ff bf : List Nat) (sed : EdgeDictionary)
    (hleaf : (s.poly selfP).front = none ∧ (s.poly selfP).back = none)
    (hloop : Polyhedron.splitFacesLoop fuel s (s.poly selfP).faces pl [] [] ⟨[]⟩
      = .ok (s1, (ff, bf, sed))) :
    (ff.length > 0 ∧ bf.length ≤ 1 →
      Polyhedron.split (fuel + 1) s selfP pl = .ok (s1, ([selfP], [], [])) ∧
      (s1.poly selfP).front = none ∧ (s1.poly selfP).back = none) ∧
    (¬(ff.length > 0 ∧ bf.length ≤ 1) → ff.length ≤ 1 ∧ bf.length > 0 →
      Polyhedron.split (fuel + 1) s selfP pl = .ok (s1, ([], [selfP], [])) ∧
      (s1.poly selfP).front = none ∧ (s1.poly selfP).back = none) := by
  have hpp : s1.poly selfP = s.poly selfP := by
    unfold State.poly
    rw [Polyhedron.splitFacesLoop_polys _ _ _ _ _ _ _ _ _ hloop]
  constructor
  · intro hc1
    refine ⟨?_, by rw [hpp]; exact hleaf.1, by rw [hpp]; exact hleaf.2⟩
    rw [Polyhedron.split.eq_def]
    simp only []
    rw [if_pos hleaf]
    rw [bind_eq_match_gerr, hloop]
    simp only []
    rw [if_pos hc1]
  · intro hc1 hc2
    refine ⟨?_, by rw [hpp]; exact hleaf.1, by rw [hpp]; exact hleaf.2⟩
    rw [Polyhedron.split.eq_def]
    simp only []
    rw [if_pos hleaf]
    rw [bind_eq_match_gerr, hloop]
    simp only []
    rw [if_neg hc1, if_pos hc2]

section ConcreteExecutions

/- Core `Rat.add`, `Rat.mul`, `Rat.sub` and `Rat.inv` are marked
`@[irreducible]`, which blocks `decide`'s elaborator-side evaluation of
the concrete executions below (the kernel itself reduces them fine).
Restore the default transparency for this section only: the symbolic
proofs above rely on the default irreducibility to keep `split` and
`simp` from unfolding rational arithmetic. -/
attribute [local semireducible] Rat.add Rat.mul Rat.sub Rat.inv

/-- The construction of `c2L0`: building the cube `[-1,1]³` in the empty
heap produces exactly the checkpoint literal. -/
theorem c2_init : Polyhedron.init State.empty (cubeVertices 1) cubeFaces 1 = .ok (c2L0, 0) := by
  decide

/-- The construction of `tetraL0`: building the tetrahedron in the empty
heap produces exactly the checkpoint literal. -/
theorem tetra_init :
    Polyhedron.init State.empty tetraVertices tetraFaces 1 = .ok (tetraL0, 0) := by
  decide

/-- C2: counterexample to the claimed front-to-back order.  Clipping the
cube `[-1,1]³` to the planes `[x = -2, x = 0]` (in that list order): the
source consumes `x = 0` first and really splits the cube (the root ends up
an internal node with children), while the claim's front-to-back order
meets `x = -2` first, finds the whole cube in front, and never splits
(the root stays a leaf). -/
theorem C2_order_counterexample :
    Polyhedron.clipToPlanes 64 c2L0 0 [c2planeFrontal, c2planeCut] = .ok c2L2 ∧
    clipToPlanesSpecOrdered 64 c2L0 0 [c2planeFrontal, c2planeCut] = .ok c2S1 ∧
    (c2L2.poly 0).front = some 1 ∧ (c2S1.poly 0).front = none := by
  refine ⟨by decide, by decide, by decide, by decide⟩

/-- C1: the claimed clip/containment idempotence fails — code bug.  For
cube `A = [-1/8,1/8]³` inside cube `B = [-1,1]³` and the point
`p = (10,0,0)` strictly outside `B`: before `A.clipTo(B)`, `A.contains p`
is `false` (and `B.contains p` is `false`); after the clip `A` has been
clipped completely away (empty face list, still a leaf), yet
`A.contains p` returns `true`: the face loop of `contains` is vacuous over
an empty face list. -/
theorem C1_contains_after_clip_bug :
    c1cubesExec = .ok (false, false, true) ∧
    c1cubesEmptyAfter = .ok (true, 0, false) := by
  refine ⟨by decide, by decide⟩

/-- C9: counterexample to the empty-face-list half of the claimed shape
invariant.  Splitting the tetrahedron by `x = 0` leaves the root an
internal node (both children present, same color) whose face list is still
its original four faces, not `[]`. -/
theorem C9_internal_faces_counterexample :
    Polyhedron.split 64 tetraL0 0 c2planeCut = .ok (tetraL1, ([1], [2], [8])) ∧
    (tetraL1.poly 0).front = some 1 ∧ (tetraL1.poly 0).back = some 2 ∧
    (tetraL1.poly 1).color = (tetraL1.poly 0).color ∧
    (tetraL1.poly 2).color = (tetraL1.poly 0).color ∧
    (tetraL1.poly 0).faces = [0, 1, 2, 3] := by
  refine ⟨by decide, by decide, by decide, by decide, by decide, by decide⟩

/-- C7: counterexample to the claimed exact `None` condition and the
claimed ON-classification.  First part: for the plane `x = 0` and the
segment from `(1e-5,0,0)` to `(1+1e-5,0,0)`, the divisor is far from
zero and `t = -1e-5` lies outside `[0,1]`, yet the result is the first
endpoint (not `None`): `t` is within `planeTolerance` of `0`.  Second
part: for the segment from `(-1e-4,0,0)` to `(10,0,0)` the endpoints
classify strictly on opposite sides, yet the returned vertex is the first
endpoint itself, which classifies as `-1`, not ON. -/
theorem C7_intersection_counterexample :
    (isclose (Plane.divisor ⟨1, 0, 0, 0⟩ ⟨1/100000, 0, 0⟩ ⟨1 + 1/100000, 0, 0⟩) 0
        zeroTolerance = false ∧
     Plane.interT ⟨1, 0, 0, 0⟩ ⟨1/100000, 0, 0⟩ ⟨1 + 1/100000, 0, 0⟩ < 0 ∧
     Plane.intersectionCase ⟨1, 0, 0, 0⟩ ⟨1/100000, 0, 0⟩ ⟨1 + 1/100000, 0, 0⟩ =
       ICase.endpt1) ∧
    (Plane.whichSideV ⟨1, 0, 0, 0⟩ ⟨-1/10000, 0, 0⟩ = -1 ∧
     Plane.whichSideV ⟨1, 0, 0, 0⟩ ⟨10, 0, 0⟩ = 1 ∧
     Plane.intersectionCase ⟨1, 0, 0, 0⟩ ⟨-1/10000, 0, 0⟩ ⟨10, 0, 0⟩ = ICase.endpt1 ∧
     Plane.whichSideV ⟨1, 0, 0, 0⟩ ⟨-1/10000, 0, 0⟩ ≠ 0) := by
  exact ⟨⟨by decide, by decide, by decide⟩, by decide, by decide, by decide, by decide⟩

/-- Witness for C7's amended theorem at the plane `x = 0` and the segment
from `(-1,0,0)` to `(1,0,0)`: strictly opposite sides, a new interior
vertex at the origin, classified ON. -/
theorem C7_intersection_tolerance_amended_witness :
    Plane.whichSideV ⟨1, 0, 0, 0⟩ ⟨-1, 0, 0⟩ * Plane.whichSideV ⟨1, 0, 0, 0⟩ ⟨1, 0, 0⟩ < 0 ∧
    Plane.intersectionCase ⟨1, 0, 0, 0⟩ ⟨-1, 0, 0⟩ ⟨1, 0, 0⟩ = ICase.newPt ⟨0, 0, 0⟩ ∧
    Plane.whichSideV ⟨1, 0, 0, 0⟩ ⟨0, 0, 0⟩ = 0 ∧
    0 < Plane.interT ⟨1, 0, 0, 0⟩ ⟨-1, 0, 0⟩ ⟨1, 0, 0⟩ ∧
    Plane.interT ⟨1, 0, 0, 0⟩ ⟨-1, 0, 0⟩ ⟨1, 0, 0⟩ < 1 :=
  have h := (C7_intersection_tolerance_amended ⟨1, 0, 0, 0⟩ ⟨-1, 0, 0⟩ ⟨1, 0, 0⟩).2.2.2
    (by decide)
  ⟨by decide, by decide, (h.2.2.2.2 ⟨0, 0, 0⟩ (by decide)).1, h.2.1, h.2.2.1⟩

/-- Witness for C10 at a concrete input: the cube heap `c2L0` with the
diagonal vertex pair `(0, 6)`, which has no registered edge and is far
apart. -/
theorem C10_edge_constructor_witness :
    (c2L0.allEdges.find2 0 6).isSome = false ∧
    ¬ Vertex.distSq (c2L0.vert 0) (c2L0.vert 6) * (20000 * 20000) < 1 ∧
    Edge.init c2L0 0 6 =
      .ok ({ c2L0 with
              edges := c2L0.edges.push ⟨0, 6, none, none, none⟩,
              allEdges := (c2L0.allEdges.insertAtPoint c2L0.edges.size 0).insertAtPoint
                c2L0.edges.size 6 },
           c2L0.edges.size) ∧
    (((c2L0.allEdges.insertAtPoint c2L0.edges.size 0).insertAtPoint
        c2L0.edges.size 6).find1 0).contains c2L0.edges.size = true :=
  have h := (C10_edge_constructor c2L0 0 6).2 (by decide) (by decide)
  ⟨by decide, by decide, h.1, h.2.1⟩

/-- Witness for `C9_shape_invariant`: instantiating the `split` conjunct
on the concrete tetrahedron split certifies that `tetraL1` satisfies the
shape invariant. -/
theorem C9_shape_invariant_witness : polyShapeWF tetraL1 :=
  C9_shape_invariant.2.1 64 tetraL0 0 c2planeCut tetraL1 ([1], [2], [8])
    (by decide) (by decide)
    (by unfold polyShapeWF childOk; decide)

/-- Witness for `C3_trivial_split`: the tetrahedron against the plane
`x = 2` has all four faces in front, so the split is trivial and
allocates only the four wrapper faces. -/
theorem C3_trivial_split_witness :
    Polyhedron.split 63 tetraL0 0 c2planeFrontal = .ok (tetraF, ([0], [], [])) ∧
    (tetraF.poly 0).front = none ∧ (tetraF.poly 0).back = none :=
  (C3_trivial_split 62 tetraL0 0 c2planeFrontal tetraF [4, 5, 6, 7] [] ⟨[]⟩
    ⟨by decide, by decide⟩ (by decide)).1 (by decide)

end ConcreteExecutions

end CrystalGraphicsVerification
